import Mathlib

/-!
Verification development for a Mode S / ADS-B decoder written in Rust.

Byte buffers are modelled as `List Nat` whose entries are below 256
(`u8` values).  Rust's in-place mutation is modelled by returning the
new buffer.  `f64` arithmetic in the CPR solver is modelled exactly
over `ℚ`; the concrete values exercised stay far from rounding
boundaries.  Machine integers (`u32`, `u16`, `i32`, `i16`) are
modelled as `Nat` / `Int`; no operation in the translated code paths
overflows its Rust type, so no explicit wrap-around is required.
-/

namespace Adsb

/-- Pad or truncate a raw byte slice to the fixed 14-byte message
buffer, as the Rust decoder does by copying `min(len, 14)` bytes into
a zero-initialised `[u8; 14]`. -/
def padTo14 (raw : List Nat) : List Nat :=
  raw.take 14 ++ List.replicate (14 - raw.length) 0

/-- Byte access into a buffer, defaulting to 0.  Every access
performed by the translated code is in bounds of the 14-byte buffer,
so the default is never observed where Rust would panic. -/
def byteAt (msg : List Nat) (i : Nat) : Nat :=
  msg.getD i 0

/-- Precomputed CRC table for Mode S messages (`MODES_CHECKSUM_TABLE`
in `crc.rs`, 112 entries, the final 24 being zero). -/
def MODES_CHECKSUM_TABLE : List Nat :=
  [0x3935ea, 0x1c9af5, 0xf1b77e, 0x78dbbf, 0xc397db, 0x9e31e9, 0xb0e2f0, 0x587178,
   0x2c38bc, 0x161c5e, 0x0b0e2f, 0xfa7d13, 0x82c48d, 0xbe9842, 0x5f4c21, 0xd05c14,
   0x682e0a, 0x341705, 0xe5f186, 0x72f8c3, 0xc68665, 0x9cb936, 0x4e5c9b, 0xd8d449,
   0x939020, 0x49c810, 0x24e408, 0x127204, 0x093902, 0x049c81, 0xfdb444, 0x7eda22,
   0x3f6d11, 0xe04c8c, 0x702646, 0x381323, 0xe3f395, 0x8e03ce, 0x4701e7, 0xdc7af7,
   0x91c77f, 0xb719bb, 0xa476d9, 0xadc168, 0x56e0b4, 0x2b705a, 0x15b82d, 0xf52612,
   0x7a9309, 0xc2b380, 0x6159c0, 0x30ace0, 0x185670, 0x0c2b38, 0x06159c, 0x030ace,
   0x018567, 0xff38b7, 0x80665f, 0xbfc92b, 0xa01e91, 0xaff54c, 0x57faa6, 0x2bfd53,
   0xea04ad, 0x8af852, 0x457c29, 0xdd4410, 0x6ea208, 0x375104, 0x1ba882, 0x0dd441,
   0xf91024, 0x7c8812, 0x3e4409, 0xe0d800, 0x706c00, 0x383600, 0x1c1b00, 0x0e0d80,
   0x0706c0, 0x038360, 0x01c1b0, 0x00e0d8, 0x00706c, 0x003836, 0x001c1b, 0xfff409,
   0x000000, 0x000000, 0x000000, 0x000000, 0x000000, 0x000000, 0x000000, 0x000000,
   0x000000, 0x000000, 0x000000, 0x000000, 0x000000, 0x000000, 0x000000, 0x000000,
   0x000000, 0x000000, 0x000000, 0x000000, 0x000000, 0x000000, 0x000000, 0x000000]

/-- Table lookup, defaulting to 0 (indices used are always below 112). -/
def tableAt (j : Nat) : Nat :=
  MODES_CHECKSUM_TABLE.getD j 0

/-- Test whether message bit `j` (MSB-first within each byte) is set:
Rust's `msg[j/8] & (1 << (7 - j%8)) != 0`. -/
def msgBit (msg : List Nat) (j : Nat) : Bool :=
  (byteAt msg (j / 8)) &&& (1 <<< (7 - j % 8)) != 0

/-- `modes_checksum` from `crc.rs`: XOR the table entry for every set
message bit; for 56-bit frames the first 56 table entries are skipped. -/
def modes_checksum (msg : List Nat) (bits : Nat) : Nat :=
  let offset := if bits = 112 then 0 else 112 - 56
  (List.range bits).foldl
    (fun crc j => if msgBit msg j then crc ^^^ tableAt (j + offset) else crc) 0

/-- `extract_crc` from `crc.rs`: the last three bytes of the frame as
a 24-bit integer. -/
def extract_crc (msg : List Nat) (bits : Nat) : Nat :=
  let len := bits / 8
  ((byteAt msg (len - 3)) <<< 16) ||| ((byteAt msg (len - 2)) <<< 8) |||
    byteAt msg (len - 1)

/-- `recover_icao_from_crc` from `crc.rs`. -/
def recover_icao_from_crc (msg : List Nat) (bits : Nat) : Nat :=
  modes_checksum msg bits ^^^ extract_crc msg bits

/-- `verify_crc` from `crc.rs`: extracted CRC equals computed CRC. -/
def verify_crc (msg : List Nat) (bits : Nat) : Bool :=
  extract_crc msg bits == modes_checksum msg bits

/-- Flip message bit `j`: Rust's `aux[j/8] ^= 1 << (7 - j%8)`. -/
def flip_bit (msg : List Nat) (j : Nat) : List Nat :=
  msg.set (j / 8) ((byteAt msg (j / 8)) ^^^ (1 <<< (7 - j % 8)))

/-- `fix_single_bit_errors` from `crc.rs`.  The Rust loop flips each
bit of a scratch copy in turn and commits the first flip that makes
the CRC verify; returning the (possibly repaired) buffer models the
in-place mutation of `msg`. -/
def fix_single_bit_errors (msg : List Nat) (bits : Nat) : Option Nat × List Nat :=
  match (List.range bits).find? (fun j => verify_crc (flip_bit msg j) bits) with
  | some j => (some j, flip_bit msg j)
  | none => (none, msg)

/-- Ordered list of index pairs `(j, i)` with `j < i < bits`, in the
iteration order of the nested loops of `fix_two_bit_errors`. -/
def twoBitPairs (bits : Nat) : List (Nat × Nat) :=
  (List.range bits).flatMap fun j =>
    ((List.range bits).filter (fun i => j < i)).map fun i => (j, i)

/-- `fix_two_bit_errors` from `crc.rs` (aggressive mode): nested
search over unordered pairs, committing the first pair of flips that
makes the CRC verify. -/
def fix_two_bit_errors (msg : List Nat) (bits : Nat) :
    Option (Nat × Nat) × List Nat :=
  match (twoBitPairs bits).find?
      (fun p => verify_crc (flip_bit (flip_bit msg p.1) p.2) bits) with
  | some p => (some p, flip_bit (flip_bit msg p.1) p.2)
  | none => (none, msg)

/-- Unit for altitude measurements (`AltitudeUnit` in `decoder.rs`). -/
inductive AltitudeUnit where
  | Feet
  | Meters
deriving DecidableEq, Repr

/-- BDS (Comm-B Data Selector) register records (`BdsData` in
`decoder.rs`).  `f32` fields are modelled exactly over `ℚ`; callsigns
are `List Char`. -/
inductive BdsData where
  | DataLinkCapability (continuation_flag overlay_capability : Bool)
  | AircraftIdentification (callsign : List Char)
  | AcasResolutionAdvisory (ara : Nat) (rac : Nat) (rat mte : Bool)
  | SelectedVerticalIntention (mcp_altitude fms_altitude : Option Nat)
      (baro_setting : Option ℚ) (vnav_mode alt_hold_mode approach_mode : Bool)
  | TrackAndTurnReport (roll_angle : Option ℚ) (true_track : Option ℚ)
      (ground_speed : Option Nat) (track_rate : Option ℚ)
      (true_airspeed : Option Nat)
  | HeadingAndSpeedReport (magnetic_heading : Option ℚ)
      (indicated_airspeed : Option Nat) (mach : Option ℚ)
      (baro_altitude_rate inertial_altitude_rate : Option Int)
  | Unknown (bds_code : Nat) (data : List Nat)
deriving DecidableEq, Repr

/-- AIS charset for flight ID decoding (`AIS_CHARSET` in `decoder.rs`). -/
def AIS_CHARSET : List Char :=
  "?ABCDEFGHIJKLMNOPQRSTUVWXYZ????? ???????????????0123456789??????".toList

/-- Rust's `str::trim` on the callsigns assembled here: the only
whitespace character the AIS charset can produce is the space, so
trimming drops spaces from both ends. -/
def rust_trim (s : List Char) : List Char :=
  ((s.dropWhile (fun c => c == ' ')).reverse.dropWhile (fun c => c == ' ')).reverse

/-- `decode_gillham_altitude` from `decoder.rs`: Gray-coded Mode C
altitude.  Bit layout D4 D2 B4 B2 B1 A4 A2 A1 C4 C2 C1. -/
def decode_gillham_altitude (code : Nat) : Option Int :=
  if code = 0 then none else
  let c1 := code &&& 0x001 != 0
  let c2 := code &&& 0x002 != 0
  let c4 := code &&& 0x004 != 0
  let a1 := code &&& 0x008 != 0
  let a2 := code &&& 0x010 != 0
  let a4 := code &&& 0x020 != 0
  let b1 := code &&& 0x040 != 0
  let b2 := code &&& 0x080 != 0
  let b4 := code &&& 0x100 != 0
  let d2 := code &&& 0x200 != 0
  let d4 := code &&& 0x400 != 0
  let grayval :=
    (if d4 then 0x20 else 0) ||| (if d2 then 0x10 else 0) |||
    (if b4 then 0x04 else 0) ||| (if b2 then 0x02 else 0) |||
    (if b1 then 0x01 else 0)
  let g1 := grayval ^^^ (grayval >>> 4)
  let g2 := g1 ^^^ (g1 >>> 2)
  let five_hundreds := g2 ^^^ (g2 >>> 1)
  let gray100 :=
    (if c4 then 0x10 else 0) ||| (if c2 then 0x08 else 0) |||
    (if c1 then 0x04 else 0) ||| (if a4 then 0x02 else 0) |||
    (if a2 then 0x01 else 0)
  let h1 := gray100 ^^^ (gray100 >>> 4)
  let h2 := h1 ^^^ (h1 >>> 2)
  let one_hundreds := h2 ^^^ (h2 >>> 1)
  let hundreds := if a1 then 4 - min (one_hundreds % 5) 4 else min (one_hundreds % 5) 4
  let altitude : Int := (five_hundreds : Int) * 500 + (hundreds : Int) * 100 - 1300
  if -1200 ≤ altitude ∧ altitude ≤ 126700 then some altitude else none

/-- `try_decode_bds_10` from `decoder.rs`. -/
def try_decode_bds_10 (mb : List Nat) : Option BdsData :=
  if byteAt mb 0 ≠ 0x10 then none else
  some (.DataLinkCapability (byteAt mb 1 &&& 0x80 != 0) (byteAt mb 1 &&& 0x02 != 0))

/-- The eight 6-bit character indices of a BDS 2,0 MB field
(`char_indices` in `try_decode_bds_20`). -/
def bds20_char_indices (mb : List Nat) : List Nat :=
  [byteAt mb 0 >>> 2,
   ((byteAt mb 0 &&& 0x03) <<< 4) ||| (byteAt mb 1 >>> 4),
   ((byteAt mb 1 &&& 0x0F) <<< 2) ||| (byteAt mb 2 >>> 6),
   byteAt mb 2 &&& 0x3F,
   byteAt mb 3 >>> 2,
   ((byteAt mb 3 &&& 0x03) <<< 4) ||| (byteAt mb 4 >>> 4),
   ((byteAt mb 4 &&& 0x0F) <<< 2) ||| (byteAt mb 5 >>> 6),
   byteAt mb 5 &&& 0x3F]

/-- `try_decode_bds_20` from `decoder.rs`.  An index is invalid if it
is out of range or maps to a question mark while being nonzero; the
assembled callsign must be non-empty after trimming and not consist
solely of spaces and question marks. -/
def try_decode_bds_20 (mb : List Nat) : Option BdsData :=
  let char_indices := bds20_char_indices mb
  let valid_chars := char_indices.all fun idx =>
    idx < 64 && !(AIS_CHARSET.getD idx '?' == '?' && idx != 0)
  if !valid_chars then none else
  let chars := char_indices.map fun idx => AIS_CHARSET.getD (min idx 63) '?'
  let callsign := rust_trim chars
  if callsign.isEmpty || callsign.all (fun c => c == ' ' || c == '?') then none
  else some (.AircraftIdentification callsign)

/-- `try_decode_bds_30` from `decoder.rs`. -/
def try_decode_bds_30 (mb : List Nat) : Option BdsData :=
  let ara := (byteAt mb 0 <<< 6) ||| (byteAt mb 1 >>> 2)
  let rac := ((byteAt mb 1 &&& 0x03) <<< 2) ||| (byteAt mb 2 >>> 6)
  let rat := byteAt mb 2 &&& 0x20 != 0
  let mte := byteAt mb 2 &&& 0x10 != 0
  if ara = 0 ∧ rac = 0 then none
  else some (.AcasResolutionAdvisory ara rac rat mte)

/-- `try_decode_bds_40` from `decoder.rs`. -/
def try_decode_bds_40 (mb : List Nat) : Option BdsData :=
  let mcp_status := byteAt mb 0 &&& 0x80 != 0
  let fms_status := byteAt mb 2 &&& 0x80 != 0
  let baro_status := byteAt mb 4 &&& 0x80 != 0
  let mcp_altitude := if mcp_status then
      some ((((byteAt mb 0 &&& 0x7F) <<< 5) ||| (byteAt mb 1 >>> 3)) * 16)
    else none
  let fms_altitude := if fms_status then
      some ((((byteAt mb 2 &&& 0x7F) <<< 5) ||| (byteAt mb 3 >>> 3)) * 16)
    else none
  let baro_setting : Option ℚ := if baro_status then
      some (800 + ((((byteAt mb 4 &&& 0x7F) <<< 5) ||| (byteAt mb 5 >>> 3)) : ℚ) / 10)
    else none
  let vnav_mode := byteAt mb 6 &&& 0x08 != 0
  let alt_hold_mode := byteAt mb 6 &&& 0x04 != 0
  let approach_mode := byteAt mb 6 &&& 0x02 != 0
  if mcp_altitude.isNone ∧ fms_altitude.isNone ∧ baro_setting.isNone then none
  else if mcp_altitude.any (fun alt => alt > 50000) then none
  else if fms_altitude.any (fun alt => alt > 50000) then none
  else if baro_setting.any (fun baro => baro < 850 || baro > 1100) then none
  else some (.SelectedVerticalIntention mcp_altitude fms_altitude baro_setting
    vnav_mode alt_hold_mode approach_mode)

/-- Two's-complement interpretation used by the BDS 5,0 / 6,0 signed
raw fields: `if raw & sign != 0 { raw - 2*sign }`. -/
def bdsSigned (raw sign : Nat) : Int :=
  if raw &&& sign != 0 then (raw : Int) - 2 * (sign : Int) else (raw : Int)

/-- `try_decode_bds_50` from `decoder.rs`. -/
def try_decode_bds_50 (mb : List Nat) : Option BdsData :=
  let roll_status := byteAt mb 0 &&& 0x80 != 0
  let track_status := byteAt mb 1 &&& 0x10 != 0
  let gs_status := byteAt mb 2 &&& 0x02 != 0
  let track_rate_status := byteAt mb 3 &&& 0x40 != 0
  let tas_status := byteAt mb 4 &&& 0x08 != 0
  let roll_angle : Option ℚ := if roll_status then
      some ((bdsSigned (((byteAt mb 0 &&& 0x7F) <<< 3) ||| (byteAt mb 1 >>> 5)) 0x200 : ℚ)
        * 45 / 256)
    else none
  let true_track : Option ℚ := if track_status then
      some (((((byteAt mb 1 &&& 0x0F) <<< 7) ||| (byteAt mb 2 >>> 1)) : ℚ) * 90 / 512)
    else none
  let ground_speed := if gs_status then
      some ((((byteAt mb 2 &&& 0x01) <<< 9) ||| (byteAt mb 3 <<< 1) ||| (byteAt mb 4 >>> 7)) * 2)
    else none
  let track_rate : Option ℚ := if track_rate_status then
      some ((bdsSigned (((byteAt mb 4 &&& 0x3F) <<< 3) ||| (byteAt mb 5 >>> 5)) 0x100 : ℚ)
        * 8 / 256)
    else none
  let true_airspeed := if tas_status then
      some ((((byteAt mb 5 &&& 0x1F) <<< 5) ||| (byteAt mb 6 >>> 3)) * 2)
    else none
  let valid_count := [roll_status, track_status, gs_status, track_rate_status,
    tas_status].count true
  if valid_count < 2 then none
  else if roll_angle.any (fun roll => |roll| > 60) then none
  else if ground_speed.any (fun gs => gs > 600) then none
  else if true_airspeed.any (fun tas => tas > 600) then none
  else some (.TrackAndTurnReport roll_angle true_track ground_speed track_rate
    true_airspeed)

/-- `try_decode_bds_60` from `decoder.rs`. -/
def try_decode_bds_60 (mb : List Nat) : Option BdsData :=
  let hdg_status := byteAt mb 0 &&& 0x80 != 0
  let ias_status := byteAt mb 1 &&& 0x10 != 0
  let mach_status := byteAt mb 2 &&& 0x02 != 0
  let baro_rate_status := byteAt mb 3 &&& 0x40 != 0
  let inertial_rate_status := byteAt mb 4 &&& 0x08 != 0
  let magnetic_heading : Option ℚ := if hdg_status then
      some (((((byteAt mb 0 &&& 0x7F) <<< 4) ||| (byteAt mb 1 >>> 4)) : ℚ) * 90 / 512)
    else none
  let indicated_airspeed := if ias_status then
      some (((byteAt mb 1 &&& 0x0F) <<< 6) ||| (byteAt mb 2 >>> 2))
    else none
  let mach : Option ℚ := if mach_status then
      some (((((byteAt mb 2 &&& 0x01) <<< 9) ||| (byteAt mb 3 <<< 1) ||| (byteAt mb 4 >>> 7)) : ℚ)
        * 8 / 1000)
    else none
  let baro_altitude_rate : Option Int := if baro_rate_status then
      some (bdsSigned (((byteAt mb 4 &&& 0x3F) <<< 4) ||| (byteAt mb 5 >>> 4)) 0x200 * 32)
    else none
  let inertial_altitude_rate : Option Int := if inertial_rate_status then
      some (bdsSigned (((byteAt mb 5 &&& 0x0F) <<< 6) ||| (byteAt mb 6 >>> 2)) 0x200 * 32)
    else none
  let valid_count := [hdg_status, ias_status, mach_status, baro_rate_status,
    inertial_rate_status].count true
  if valid_count < 2 then none
  else if indicated_airspeed.any (fun ias => ias > 500) then none
  else if mach.any (fun m => m > 1) then none
  else some (.HeadingAndSpeedReport magnetic_heading indicated_airspeed mach
    baro_altitude_rate inertial_altitude_rate)

/-- `decode_mb_field` from `decoder.rs`: probe the 7-byte MB field of
a DF20/DF21 frame against the registers in the fixed order
2,0 - 4,0 - 5,0 - 6,0 - 3,0 - 1,0, falling through to `Unknown`. -/
def decode_mb_field (msg : List Nat) : Option BdsData :=
  if msg.length < 11 then none else
  let mb := (msg.drop 4).take 7
  match try_decode_bds_20 mb with
  | some bds => some bds
  | none =>
  match try_decode_bds_40 mb with
  | some bds => some bds
  | none =>
  match try_decode_bds_50 mb with
  | some bds => some bds
  | none =>
  match try_decode_bds_60 mb with
  | some bds => some bds
  | none =>
  match try_decode_bds_30 mb with
  | some bds => some bds
  | none =>
  match try_decode_bds_10 mb with
  | some bds => some bds
  | none => some (.Unknown 0x00 mb)

/-- Constants for message sizes (`decoder.rs`). -/
def MODES_LONG_MSG_BITS : Nat := 112

def MODES_SHORT_MSG_BITS : Nat := 56

def MODES_LONG_MSG_BYTES : Nat := 14

/-- `message_len_by_type` from `decoder.rs`. -/
def message_len_by_type (df : Nat) : Nat :=
  match df with
  | 16 | 17 | 19 | 20 | 21 => MODES_LONG_MSG_BITS
  | _ => MODES_SHORT_MSG_BITS

/-- Decoded Mode S message (`ModesMessage` in `decoder.rs`).  The
`heading` field is exact (`ℚ`) for the heading/airspeed subtype; see
`decode_extended_squitter` for the one field pair modelled
approximately. -/
structure ModesMessage where
  msg : List Nat
  msg_bits : Nat
  msg_type : Nat
  crc : Nat
  crc_ok : Bool
  error_bit : Option Nat
  error_bit2 : Option Nat
  aa : List Nat
  ca : Nat
  me_type : Nat
  me_sub : Nat
  fs : Nat
  dr : Nat
  um : Nat
  identity : Nat
  altitude : Int
  unit : AltitudeUnit
  flight : List Char
  aircraft_type : Nat
  fflag : Bool
  tflag : Bool
  raw_latitude : Nat
  raw_longitude : Nat
  heading_is_valid : Bool
  heading : ℚ
  ew_dir : Nat
  ew_velocity : Nat
  ns_dir : Nat
  ns_velocity : Nat
  vert_rate_source : Nat
  vert_rate_sign : Nat
  vert_rate : Nat
  velocity : Nat
  phase_corrected : Bool
  signal_level : Nat
  bds_data : Option BdsData
deriving DecidableEq, Repr

/-- The `Default` impl for `ModesMessage` in `decoder.rs`. -/
def ModesMessage.default : ModesMessage where
  msg := List.replicate MODES_LONG_MSG_BYTES 0
  msg_bits := 0
  msg_type := 0
  crc := 0
  crc_ok := false
  error_bit := none
  error_bit2 := none
  aa := [0, 0, 0]
  ca := 0
  me_type := 0
  me_sub := 0
  fs := 0
  dr := 0
  um := 0
  identity := 0
  altitude := 0
  unit := .Feet
  flight := []
  aircraft_type := 0
  fflag := false
  tflag := false
  raw_latitude := 0
  raw_longitude := 0
  heading_is_valid := false
  heading := 0
  ew_dir := 0
  ew_velocity := 0
  ns_dir := 0
  ns_velocity := 0
  vert_rate_source := 0
  vert_rate_sign := 0
  vert_rate := 0
  velocity := 0
  phase_corrected := false
  signal_level := 0
  bds_data := none

/-- `ModesMessage::icao_address`: the 24-bit ICAO address. -/
def ModesMessage.icao_address (mm : ModesMessage) : Nat :=
  (byteAt mm.aa 0 <<< 16) ||| (byteAt mm.aa 1 <<< 8) ||| byteAt mm.aa 2

/-- `decode_ac13_field` from `decoder.rs` (DF0/4/16/20 altitude).
Rust writes the unit through an out-parameter; the pair returns it. -/
def decode_ac13_field (msg : List Nat) : Int × AltitudeUnit :=
  let m_bit := byteAt msg 3 &&& 0x40 != 0
  let q_bit := byteAt msg 3 &&& 0x10 != 0
  if !m_bit then
    if q_bit then
      let n := ((byteAt msg 2 &&& 0x1F) <<< 6) ||| ((byteAt msg 3 &&& 0x80) >>> 2) |||
        ((byteAt msg 3 &&& 0x20) >>> 1) ||| (byteAt msg 3 &&& 0x0F)
      ((n : Int) * 25 - 1000, .Feet)
    else
      let c1 := (byteAt msg 2 >>> 4) &&& 1
      let a1 := (byteAt msg 2 >>> 3) &&& 1
      let c2 := (byteAt msg 2 >>> 2) &&& 1
      let a2 := (byteAt msg 2 >>> 1) &&& 1
      let c4 := byteAt msg 2 &&& 1
      let a4 := (byteAt msg 3 >>> 7) &&& 1
      let b1 := (byteAt msg 3 >>> 5) &&& 1
      let d2 := (byteAt msg 3 >>> 3) &&& 1
      let b2 := (byteAt msg 3 >>> 2) &&& 1
      let d4 := (byteAt msg 3 >>> 1) &&& 1
      let b4 := byteAt msg 3 &&& 1
      let code := (d4 <<< 10) ||| (d2 <<< 9) ||| (b4 <<< 8) ||| (b2 <<< 7) |||
        (b1 <<< 6) ||| (a4 <<< 5) ||| (a2 <<< 4) ||| (a1 <<< 3) ||| (c4 <<< 2) |||
        (c2 <<< 1) ||| c1
      match decode_gillham_altitude code with
      | some alt => (alt, .Feet)
      | none => (0, .Feet)
  else
    let n := ((byteAt msg 2 &&& 0x1F) <<< 7) ||| ((byteAt msg 3 &&& 0x80) >>> 1) |||
      (byteAt msg 3 &&& 0x20) ||| (byteAt msg 3 &&& 0x0F)
    ((n : Int) * 25, .Meters)

/-- `decode_ac12_field` from `decoder.rs` (DF17 airborne position
altitude, always feet). -/
def decode_ac12_field (msg : List Nat) : Int × AltitudeUnit :=
  let q_bit := byteAt msg 5 &&& 0x01 != 0
  if q_bit then
    let n := ((byteAt msg 5 >>> 1) <<< 4) ||| ((byteAt msg 6 &&& 0xF0) >>> 4)
    ((n : Int) * 25 - 1000, .Feet)
  else
    let c1 := (byteAt msg 5 >>> 1) &&& 1
    let a1 := (byteAt msg 5 >>> 2) &&& 1
    let c2 := (byteAt msg 5 >>> 3) &&& 1
    let a2 := (byteAt msg 5 >>> 4) &&& 1
    let c4 := (byteAt msg 5 >>> 5) &&& 1
    let a4 := (byteAt msg 5 >>> 6) &&& 1
    let b1 := (byteAt msg 5 >>> 7) &&& 1
    let b2 := (byteAt msg 6 >>> 4) &&& 1
    let d2 := (byteAt msg 6 >>> 5) &&& 1
    let b4 := (byteAt msg 6 >>> 6) &&& 1
    let d4 := (byteAt msg 6 >>> 7) &&& 1
    let code := (d4 <<< 10) ||| (d2 <<< 9) ||| (b4 <<< 8) ||| (b2 <<< 7) |||
      (b1 <<< 6) ||| (a4 <<< 5) ||| (a2 <<< 4) ||| (a1 <<< 3) ||| (c4 <<< 2) |||
      (c2 <<< 1) ||| c1
    match decode_gillham_altitude code with
    | some alt => (alt, .Feet)
    | none => (0, .Feet)

/-- The eight 6-bit character indices of a DF17 identification
message (`char_indices` in `decode_extended_squitter`). -/
def df17_char_indices (msg : List Nat) : List Nat :=
  [byteAt msg 5 >>> 2,
   ((byteAt msg 5 &&& 0x03) <<< 4) ||| (byteAt msg 6 >>> 4),
   ((byteAt msg 6 &&& 0x0F) <<< 2) ||| (byteAt msg 7 >>> 6),
   byteAt msg 7 &&& 0x3F,
   byteAt msg 8 >>> 2,
   ((byteAt msg 8 &&& 0x03) <<< 4) ||| (byteAt msg 9 >>> 4),
   ((byteAt msg 9 &&& 0x0F) <<< 2) ||| (byteAt msg 10 >>> 6),
   byteAt msg 10 &&& 0x3F]

/-- `decode_extended_squitter` from `decoder.rs` (DF17).  The ground
speed of velocity subtypes 1/2 uses `f64::sqrt`; it is modelled with
the integer square root, which the truncating `as u16` cast matches
away from perfect squares, and the `f64::atan2` heading of those
subtypes is left at its prior value.  No claim below refers to either
field. -/
def decode_extended_squitter (mm : ModesMessage) : ModesMessage :=
  let msg := mm.msg
  if 1 ≤ mm.me_type ∧ mm.me_type ≤ 4 then
    let chars := (df17_char_indices msg).map fun idx =>
      if idx < AIS_CHARSET.length then AIS_CHARSET.getD idx '?' else '?'
    { mm with
      aircraft_type := mm.me_type - 1
      flight := rust_trim chars }
  else if 9 ≤ mm.me_type ∧ mm.me_type ≤ 18 then
    let altUnit := decode_ac12_field msg
    { mm with
      fflag := byteAt msg 6 &&& 0x04 != 0
      tflag := byteAt msg 6 &&& 0x08 != 0
      altitude := altUnit.1
      unit := altUnit.2
      raw_latitude := ((byteAt msg 6 &&& 0x03) <<< 15) ||| (byteAt msg 7 <<< 7) |||
        (byteAt msg 8 >>> 1)
      raw_longitude := ((byteAt msg 8 &&& 0x01) <<< 16) ||| (byteAt msg 9 <<< 8) |||
        byteAt msg 10 }
  else if mm.me_type = 19 ∧ 1 ≤ mm.me_sub ∧ mm.me_sub ≤ 4 then
    if mm.me_sub = 1 ∨ mm.me_sub = 2 then
      let ew_velocity := ((byteAt msg 5 &&& 0x03) <<< 8) ||| byteAt msg 6
      let ns_velocity := ((byteAt msg 7 &&& 0x7F) <<< 3) ||| ((byteAt msg 8 &&& 0xE0) >>> 5)
      { mm with
        ew_dir := (byteAt msg 5 &&& 0x04) >>> 2
        ew_velocity := ew_velocity
        ns_dir := (byteAt msg 7 &&& 0x80) >>> 7
        ns_velocity := ns_velocity
        vert_rate_source := (byteAt msg 8 &&& 0x10) >>> 4
        vert_rate_sign := (byteAt msg 8 &&& 0x08) >>> 3
        vert_rate := ((byteAt msg 8 &&& 0x07) <<< 6) ||| ((byteAt msg 9 &&& 0xFC) >>> 2)
        velocity := Nat.sqrt (ew_velocity * ew_velocity + ns_velocity * ns_velocity) }
    else
      { mm with
        heading_is_valid := byteAt msg 5 &&& 0x04 != 0
        heading := (360 / 128 : ℚ) *
          (((byteAt msg 5 &&& 0x03) <<< 5) ||| (byteAt msg 6 >>> 3) : ℚ) }
  else mm

/-- The CRC phase of `decode_modes_message` (`decoder.rs`): copy the
raw slice into a zero-initialised 14-byte buffer, bind the ICAO
address by downlink format, verify the CRC, and possibly repair
DF11/DF17 frames in place. -/
def decode_crc_phase (raw : List Nat) (fix_errors aggressive : Bool) :
    ModesMessage :=
  let msg0 := padTo14 raw
  let msg_type := byteAt msg0 0 >>> 3
  let msg_bits := message_len_by_type msg_type
  let icao_in_message := msg_type == 11 || msg_type == 17 || msg_type == 18
  if icao_in_message then
    let aa := [byteAt msg0 1, byteAt msg0 2, byteAt msg0 3]
    let crc0 := extract_crc msg0 msg_bits
    let computed := modes_checksum msg0 msg_bits
    let crc_ok0 := crc0 == computed
    if !crc_ok0 && fix_errors && (msg_type == 11 || msg_type == 17) then
      match fix_single_bit_errors msg0 msg_bits with
      | (some bit, msg1) =>
        { ModesMessage.default with
          msg := msg1, msg_bits := msg_bits, msg_type := msg_type
          crc := extract_crc msg1 msg_bits, crc_ok := true
          error_bit := some bit, aa := aa }
      | (none, _) =>
        if aggressive && msg_type == 17 then
          match fix_two_bit_errors msg0 msg_bits with
          | (some (bit1, bit2), msg1) =>
            { ModesMessage.default with
              msg := msg1, msg_bits := msg_bits, msg_type := msg_type
              crc := extract_crc msg1 msg_bits, crc_ok := true
              error_bit := some bit1, error_bit2 := some bit2, aa := aa }
          | (none, _) =>
            { ModesMessage.default with
              msg := msg0, msg_bits := msg_bits, msg_type := msg_type
              crc := crc0, crc_ok := crc_ok0, aa := aa }
        else
          { ModesMessage.default with
            msg := msg0, msg_bits := msg_bits, msg_type := msg_type
            crc := crc0, crc_ok := crc_ok0, aa := aa }
    else
      { ModesMessage.default with
        msg := msg0, msg_bits := msg_bits, msg_type := msg_type
        crc := crc0, crc_ok := crc_ok0, aa := aa }
  else
    let computed := modes_checksum msg0 msg_bits
    let received := extract_crc msg0 msg_bits
    let recovered_icao := computed ^^^ received
    { ModesMessage.default with
      msg := msg0, msg_bits := msg_bits, msg_type := msg_type
      crc := received, crc_ok := false
      aa := [(recovered_icao >>> 16) &&& 0xFF, (recovered_icao >>> 8) &&& 0xFF,
             recovered_icao &&& 0xFF] }

/-- The field-decoding phase of `decode_modes_message`: the common
fields, the DF5/DF21 squawk, the DF0/4/16/20 altitude, the DF17
extended squitter and the DF20/21 MB field, all read from the
(possibly repaired) buffer. -/
def decode_fields (mm : ModesMessage) : ModesMessage :=
  let msg := mm.msg
  let mm0 := { mm with
    ca := byteAt msg 0 &&& 0x07
    me_type := byteAt msg 4 >>> 3
    me_sub := byteAt msg 4 &&& 0x07
    fs := byteAt msg 0 &&& 0x07
    dr := (byteAt msg 1 >>> 3) &&& 0x1F
    um := ((byteAt msg 1 &&& 0x07) <<< 3) ||| (byteAt msg 2 >>> 5) }
  let mm1 :=
    if mm.msg_type = 5 ∨ mm.msg_type = 21 then
      let a := ((byteAt msg 3 &&& 0x80) >>> 5) ||| (byteAt msg 2 &&& 0x02) |||
        ((byteAt msg 2 &&& 0x08) >>> 3)
      let b := ((byteAt msg 3 &&& 0x02) <<< 1) ||| ((byteAt msg 3 &&& 0x08) >>> 2) |||
        ((byteAt msg 3 &&& 0x20) >>> 5)
      let c := ((byteAt msg 2 &&& 0x01) <<< 2) ||| ((byteAt msg 2 &&& 0x04) >>> 1) |||
        ((byteAt msg 2 &&& 0x10) >>> 4)
      let d := ((byteAt msg 3 &&& 0x01) <<< 2) ||| ((byteAt msg 3 &&& 0x04) >>> 1) |||
        ((byteAt msg 3 &&& 0x10) >>> 4)
      { mm0 with identity := a * 1000 + b * 100 + c * 10 + d }
    else mm0
  let mm2 :=
    if mm.msg_type = 0 ∨ mm.msg_type = 4 ∨ mm.msg_type = 16 ∨ mm.msg_type = 20 then
      let altUnit := decode_ac13_field msg
      { mm1 with altitude := altUnit.1, unit := altUnit.2 }
    else mm1
  let mm3 := if mm.msg_type = 17 then decode_extended_squitter mm2 else mm2
  if mm.msg_type = 20 ∨ mm.msg_type = 21 then
    { mm3 with bds_data := decode_mb_field msg }
  else mm3

/-- `decode_modes_message` from `decoder.rs`: the CRC phase followed
by the field-decoding phase. -/
def decode_modes_message (raw : List Nat) (fix_errors aggressive : Bool) :
    ModesMessage :=
  decode_fields (decode_crc_phase raw fix_errors aggressive)

/-- The accept/drop step shared by `try_decode_message`
(demodulator.rs lines 234-254) and `detect_modes_with_icao_tracking`
(lines 350-370): a CRC-valid frame whose downlink format carries the
ICAO in the message inserts its address into the known-ICAO set and is
forwarded; a frame whose ICAO was recovered from the CRC is forwarded
with `crc_ok` set exactly when the recovered address is already known;
everything else is dropped.  The channel send is modelled by the
returned `Option`. -/
def try_decode_dispatch (mm : ModesMessage) (known_icaos : List Nat) :
    List Nat × Option ModesMessage :=
  let icao_in_message := mm.msg_type == 11 || mm.msg_type == 17 || mm.msg_type == 18
  if mm.crc_ok && icao_in_message then
    (known_icaos.insert mm.icao_address, some mm)
  else if !icao_in_message then
    if known_icaos.contains mm.icao_address then
      (known_icaos, some { mm with crc_ok := true })
    else (known_icaos, none)
  else (known_icaos, none)

/-- `cpr_mod` from `aircraft.rs`: always-nonnegative modulo.  Rust's
`%` on `i32` truncates toward zero, which `Int.tmod` mirrors. -/
def cpr_mod (a b : Int) : Int :=
  let res := Int.tmod a b
  if res < 0 then res + b else res

/-- `cpr_nl` from `aircraft.rs`: number of longitude zones at the
given latitude (the standard 59-bin ADS-B NL table). -/
def cpr_nl (lat : ℚ) : Int :=
  let lat := |lat|
  if lat < 10.47047130 then 59
  else if lat < 14.82817437 then 58
  else if lat < 18.18626357 then 57
  else if lat < 21.02939493 then 56
  else if lat < 23.54504487 then 55
  else if lat < 25.82924707 then 54
  else if lat < 27.93898710 then 53
  else if lat < 29.91135686 then 52
  else if lat < 31.77209708 then 51
  else if lat < 33.53993436 then 50
  else if lat < 35.22899598 then 49
  else if lat < 36.85025108 then 48
  else if lat < 38.41241892 then 47
  else if lat < 39.92256684 then 46
  else if lat < 41.38651832 then 45
  else if lat < 42.80914012 then 44
  else if lat < 44.19454951 then 43
  else if lat < 45.54626723 then 42
  else if lat < 46.86733252 then 41
  else if lat < 48.16039128 then 40
  else if lat < 49.42776439 then 39
  else if lat < 50.67150166 then 38
  else if lat < 51.89342469 then 37
  else if lat < 53.09516153 then 36
  else if lat < 54.27817472 then 35
  else if lat < 55.44378444 then 34
  else if lat < 56.59318756 then 33
  else if lat < 57.72747354 then 32
  else if lat < 58.84763776 then 31
  else if lat < 59.95459277 then 30
  else if lat < 61.04917774 then 29
  else if lat < 62.13216659 then 28
  else if lat < 63.20427479 then 27
  else if lat < 64.26616523 then 26
  else if lat < 65.31845310 then 25
  else if lat < 66.36171008 then 24
  else if lat < 67.39646774 then 23
  else if lat < 68.42322022 then 22
  else if lat < 69.44242631 then 21
  else if lat < 70.45451075 then 20
  else if lat < 71.45986473 then 19
  else if lat < 72.45884545 then 18
  else if lat < 73.45177442 then 17
  else if lat < 74.43893416 then 16
  else if lat < 75.42056257 then 15
  else if lat < 76.39684391 then 14
  else if lat < 77.36789461 then 13
  else if lat < 78.33374083 then 12
  else if lat < 79.29428225 then 11
  else if lat < 80.24923213 then 10
  else if lat < 81.19801349 then 9
  else if lat < 82.13956981 then 8
  else if lat < 83.07199445 then 7
  else if lat < 83.99173563 then 6
  else if lat < 84.89166191 then 5
  else if lat < 85.75541621 then 4
  else if lat < 86.53536998 then 3
  else if lat < 87.00000000 then 2
  else 1

/-- `cpr_n` from `aircraft.rs`. -/
def cpr_n (lat : ℚ) (is_odd : Bool) : Int :=
  let nl := cpr_nl lat - (if is_odd then 1 else 0)
  if nl < 1 then 1 else nl

/-- `cpr_dlon` from `aircraft.rs`. -/
def cpr_dlon (lat : ℚ) (is_odd : Bool) : ℚ :=
  360 / (cpr_n lat is_odd : ℚ)

/-- Tracked aircraft data (`Aircraft` in `aircraft.rs`).  `Instant`
timestamps are modelled as natural numbers of seconds; `f64`
coordinates as `ℚ`.  The display-only `hex_addr` string (the address
formatted in hex) is omitted. -/
structure Aircraft where
  addr : Nat
  flight : List Char
  altitude : Int
  speed : Nat
  track : Nat
  seen : Nat
  messages : Nat
  odd_cprlat : Nat
  odd_cprlon : Nat
  odd_cprtime : Nat
  even_cprlat : Nat
  even_cprlon : Nat
  even_cprtime : Nat
  lat : ℚ
  lon : ℚ
  roll_angle : Option ℚ
  true_airspeed : Option Nat
  indicated_airspeed : Option Nat
  mach : Option ℚ
  magnetic_heading : Option ℚ
  baro_altitude_rate : Option Int
  selected_altitude : Option Nat
  baro_setting : Option ℚ
  squawk : Nat
  signal_level : Nat
  phase_corrections : Nat
deriving DecidableEq, Repr

/-- `Aircraft::new` from `aircraft.rs` at creation instant `now`. -/
def Aircraft.new (addr : Nat) (now : Nat) : Aircraft where
  addr := addr
  flight := []
  altitude := 0
  speed := 0
  track := 0
  seen := now
  messages := 0
  odd_cprlat := 0
  odd_cprlon := 0
  odd_cprtime := now
  even_cprlat := 0
  even_cprlon := 0
  even_cprtime := now
  lat := 0
  lon := 0
  roll_angle := none
  true_airspeed := none
  indicated_airspeed := none
  mach := none
  magnetic_heading := none
  baro_altitude_rate := none
  selected_altitude := none
  baro_setting := none
  squawk := 0
  signal_level := 0
  phase_corrections := 0

/-- The intermediate `j` latitude index of `decode_cpr`. -/
def cpr_j (ac : Aircraft) : Int :=
  Int.floor ((59 * (ac.even_cprlat : ℚ) - 60 * (ac.odd_cprlat : ℚ)) / 131072 + 1/2)

/-- The intermediate even latitude `rlat0` of `decode_cpr`
(`AIR_DLAT0 = 360/60`), wrapped below 270. -/
def cpr_rlat0 (ac : Aircraft) : ℚ :=
  let r := (360 / 60 : ℚ) * ((cpr_mod (cpr_j ac) 60 : ℚ) + (ac.even_cprlat : ℚ) / 131072)
  if r ≥ 270 then r - 360 else r

/-- The intermediate odd latitude `rlat1` of `decode_cpr`
(`AIR_DLAT1 = 360/59`), wrapped below 270. -/
def cpr_rlat1 (ac : Aircraft) : ℚ :=
  let r := (360 / 59 : ℚ) * ((cpr_mod (cpr_j ac) 59 : ℚ) + (ac.odd_cprlat : ℚ) / 131072)
  if r ≥ 270 then r - 360 else r

/-- `decode_cpr` from `aircraft.rs`: the global airborne CPR solve
over the staged odd/even fragments.  If the two intermediate
latitudes fall in different NL zones the aircraft is returned
unchanged; otherwise the decoded position is committed and the
longitude brought down below 180. -/
def decode_cpr (ac : Aircraft) : Aircraft :=
  let rlat0 := cpr_rlat0 ac
  let rlat1 := cpr_rlat1 ac
  if cpr_nl rlat0 ≠ cpr_nl rlat1 then ac
  else
    let lat_lon :=
      if ac.even_cprtime > ac.odd_cprtime then
        let ni := cpr_n rlat0 false
        let m := Int.floor (((ac.even_cprlon : ℚ) * ((cpr_nl rlat0 : ℚ) - 1) -
          (ac.odd_cprlon : ℚ) * (cpr_nl rlat0 : ℚ)) / 131072 + 1/2)
        (rlat0, cpr_dlon rlat0 false * ((cpr_mod m ni : ℚ) + (ac.even_cprlon : ℚ) / 131072))
      else
        let ni := cpr_n rlat1 true
        let m := Int.floor (((ac.even_cprlon : ℚ) * ((cpr_nl rlat1 : ℚ) - 1) -
          (ac.odd_cprlon : ℚ) * (cpr_nl rlat1 : ℚ)) / 131072 + 1/2)
        (rlat1, cpr_dlon rlat1 true * ((cpr_mod m ni : ℚ) + (ac.odd_cprlon : ℚ) / 131072))
    let lon := if lat_lon.2 > 180 then lat_lon.2 - 360 else lat_lon.2
    { ac with lat := lat_lon.1, lon := lon }

/-- The staging step of the airborne-position branch of
`update_from_message` (`aircraft.rs`, DF17 with ME type 9-18):
refresh `seen`, count the message, store the altitude, and stage the
fragment of the given parity at instant `now`. -/
def stage_fragment (ac : Aircraft) (fflag : Bool)
    (raw_lat raw_lon : Nat) (altitude : Int) (now : Nat) : Aircraft :=
  let ac1 := { ac with seen := now, messages := ac.messages + 1, altitude := altitude }
  if fflag then
    { ac1 with odd_cprlat := raw_lat, odd_cprlon := raw_lon, odd_cprtime := now }
  else
    { ac1 with even_cprlat := raw_lat, even_cprlon := raw_lon, even_cprtime := now }

/-- The absolute difference between the staged even and odd fragment
timestamps (`time_diff` in `update_from_message`). -/
def cpr_time_diff (ac : Aircraft) : Nat :=
  if ac.even_cprtime > ac.odd_cprtime then ac.even_cprtime - ac.odd_cprtime
  else ac.odd_cprtime - ac.even_cprtime

/-- The airborne-position branch of `update_from_message`: stage the
fragment, then invoke the CPR solve exactly when the two staged
fragments are at most 10 seconds apart. -/
def update_position_fragment (ac : Aircraft) (fflag : Bool)
    (raw_lat raw_lon : Nat) (altitude : Int) (now : Nat) : Aircraft :=
  let ac2 := stage_fragment ac fflag raw_lat raw_lon altitude now
  if cpr_time_diff ac2 ≤ 10 then decode_cpr ac2 else ac2

/-! Supporting lemmas about bytes, bit flips and XOR folds. -/

lemma byteAt_set_self (msg : List Nat) (i v : Nat) (h : i < msg.length) :
    byteAt (msg.set i v) i = v := by
  simp [byteAt, List.getD_eq_getElem?_getD, List.getElem?_set_self h]

lemma byteAt_set_ne (msg : List Nat) {i j : Nat} (v : Nat) (h : i ≠ j) :
    byteAt (msg.set i v) j = byteAt msg j := by
  simp [byteAt, List.getD_eq_getElem?_getD, List.getElem?_set_ne h]

lemma byteAt_lt_256 (msg : List Nat) (hbytes : ∀ b ∈ msg, b < 256) (i : Nat) :
    byteAt msg i < 256 := by
  rcases lt_or_ge i msg.length with h | h
  · rw [byteAt, List.getD_eq_getElem?_getD, List.getElem?_eq_getElem h]
    exact hbytes _ (List.getElem_mem h)
  · rw [byteAt, List.getD_eq_getElem?_getD, List.getElem?_eq_none h]
    norm_num

lemma testBit_lt_256 {p i : Nat} (hp : p < 256) (hi : 8 ≤ i) : p.testBit i = false := by
  refine Nat.testBit_lt_two_pow (lt_of_lt_of_le hp ?_)
  calc (256 : Nat) = 2 ^ 8 := by norm_num
  _ ≤ 2 ^ i := Nat.pow_le_pow_right (by norm_num) hi

lemma msgBit_eq_testBit (msg : List Nat) (j : Nat) :
    msgBit msg j = (byteAt msg (j / 8)).testBit (7 - j % 8) := by
  rw [msgBit, Nat.one_shiftLeft, Nat.and_two_pow]
  cases h : (byteAt msg (j / 8)).testBit (7 - j % 8) <;>
    simp [h, (Nat.two_pow_pos (7 - j % 8)).ne']

lemma flip_bit_length (msg : List Nat) (k : Nat) :
    (flip_bit msg k).length = msg.length := by
  rw [flip_bit, List.length_set]

lemma flip_bit_bytes (msg : List Nat) (hbytes : ∀ b ∈ msg, b < 256) (k : Nat) :
    ∀ b ∈ flip_bit msg k, b < 256 := by
  intro b hb
  rcases List.mem_or_eq_of_mem_set hb with h | rfl
  · exact hbytes _ h
  · refine Nat.xor_lt_two_pow (n := 8) (byteAt_lt_256 msg hbytes _) ?_
    rw [Nat.one_shiftLeft]
    exact Nat.pow_lt_pow_right (by norm_num) (by omega)

lemma msgBit_flip_self (msg : List Nat) (k : Nat) (h : k / 8 < msg.length) :
    msgBit (flip_bit msg k) k = !(msgBit msg k) := by
  rw [msgBit_eq_testBit, msgBit_eq_testBit, flip_bit, byteAt_set_self _ _ _ h,
    Nat.one_shiftLeft, Nat.testBit_xor, Nat.testBit_two_pow]
  simp

lemma msgBit_flip_ne (msg : List Nat) {j k : Nat}
    (hbyte : j / 8 = k / 8 → j % 8 ≠ k % 8) :
    msgBit (flip_bit msg k) j = msgBit msg j := by
  rw [msgBit_eq_testBit, msgBit_eq_testBit, flip_bit]
  by_cases hb : k / 8 = j / 8
  · rcases lt_or_ge (k / 8) msg.length with hlt | hge
    · rw [hb, byteAt_set_self _ _ _ (hb ▸ hlt), Nat.one_shiftLeft, Nat.testBit_xor,
        Nat.testBit_two_pow]
      have : 7 - k % 8 ≠ 7 - j % 8 := by
        have := hbyte hb.symm
        omega
      simp [this]
    · rw [List.set_eq_of_length_le (hb ▸ hge)]
  · rw [byteAt_set_ne _ _ hb]

lemma foldl_xor_init (g : Nat → Nat) (l : List Nat) (a t : Nat) :
    l.foldl (fun c j => c ^^^ g j) (a ^^^ t) =
      l.foldl (fun c j => c ^^^ g j) a ^^^ t := by
  induction l generalizing a with
  | nil => rfl
  | cons b l ih =>
    simp only [List.foldl_cons]
    rw [show a ^^^ t ^^^ g b = a ^^^ g b ^^^ t by
      rw [Nat.xor_assoc, Nat.xor_assoc, Nat.xor_comm t]]
    exact ih (a ^^^ g b)

lemma nat_xor_mix (a b c d : Nat) :
    (a ^^^ b) ^^^ (c ^^^ d) = (a ^^^ c) ^^^ (b ^^^ d) := by
  apply Nat.eq_of_testBit_eq
  intro i
  simp only [Nat.testBit_xor]
  cases a.testBit i <;> cases b.testBit i <;> cases c.testBit i <;>
    cases d.testBit i <;> rfl

lemma range_split {k n : Nat} (h : k < n) :
    List.range n = List.range k ++ k :: List.range' (k + 1) (n - k - 1) := by
  have h1 : List.range' 0 k 1 ++ List.range' (0 + 1 * k) (n - k) 1 =
      List.range' 0 ((n - k) + k) 1 := List.range'_append 0 k (n - k) 1
  have h2 : (n - k) + k = n := by omega
  have h3 : n - k = (n - k - 1) + 1 := by omega
  rw [List.range_eq_range', ← h2, ← h1, ← List.range_eq_range']
  congr 1
  rw [show 0 + 1 * k = k by omega, h3, List.range'_succ]
  simp

/-- The contribution of message bit `j` to the 112-bit checksum. -/
def crcTerm (msg : List Nat) (j : Nat) : Nat :=
  if msgBit msg j then tableAt j else 0

lemma modes_checksum_112_eq (msg : List Nat) :
    modes_checksum msg 112 =
      (List.range 112).foldl (fun c j => c ^^^ crcTerm msg j) 0 := by
  rw [modes_checksum]
  apply List.foldl_ext
  intro a j _
  rw [crcTerm]
  cases h : msgBit msg j <;> simp [h]

lemma modes_checksum_flip112 (msg : List Nat) (hlen : msg.length = 14)
    {k : Nat} (hk : k < 112) :
    modes_checksum (flip_bit msg k) 112 = modes_checksum msg 112 ^^^ tableAt k := by
  rw [modes_checksum_112_eq, modes_checksum_112_eq, range_split hk,
    List.foldl_append, List.foldl_append]
  simp only [List.foldl_cons]
  have hpre : (List.range k).foldl (fun c j => c ^^^ crcTerm (flip_bit msg k) j) 0 =
      (List.range k).foldl (fun c j => c ^^^ crcTerm msg j) 0 := by
    apply List.foldl_ext
    intro a j hj
    have hjk : j < k := List.mem_range.1 hj
    rw [crcTerm, crcTerm, msgBit_flip_ne msg (fun hb => by omega)]
  have hmid : crcTerm (flip_bit msg k) k = crcTerm msg k ^^^ tableAt k := by
    rw [crcTerm, crcTerm, msgBit_flip_self msg k (by omega)]
    cases h : msgBit msg k <;> simp [h]
  rw [hpre, hmid, ← Nat.xor_assoc, foldl_xor_init]
  congr 1
  apply List.foldl_ext
  intro a j hj
  obtain ⟨i, hi, rfl⟩ := List.mem_range'.1 hj
  rw [crcTerm, crcTerm, msgBit_flip_ne msg (fun hb => by omega)]

lemma xor_lt_256 {b p : Nat} (hb : b < 256) (hp : p < 256) : b ^^^ p < 256 := by
  have h : (256 : Nat) = 2 ^ 8 := by norm_num
  rw [h] at hb hp ⊢
  exact Nat.xor_lt_two_pow hb hp

lemma flip_bit_flip_bit (msg : List Nat) (k : Nat) :
    flip_bit (flip_bit msg k) k = msg := by
  unfold flip_bit
  rcases lt_or_ge (k / 8) msg.length with h | h
  · rw [byteAt_set_self _ _ _ h, List.set_set, Nat.xor_assoc, Nat.xor_self,
      Nat.xor_zero]
    apply List.ext_getElem?
    intro n
    by_cases hn : n = k / 8
    · subst hn
      rw [List.getElem?_set_self h, byteAt, List.getD_eq_getElem?_getD,
        List.getElem?_eq_getElem h]
      rfl
    · rw [List.getElem?_set_ne (fun hh => hn hh.symm)]
  · rw [List.set_eq_of_length_le h, List.set_eq_of_length_le h]

lemma extract_crc_112 (msg : List Nat) :
    extract_crc msg 112 =
      (byteAt msg 11 <<< 16) ||| (byteAt msg 12 <<< 8) ||| byteAt msg 13 := rfl

lemma testBit_or3 (a b c : Nat) (hb : b < 256) (hc : c < 256) (i : Nat) :
    ((a <<< 16) ||| (b <<< 8) ||| c).testBit i =
      if 16 ≤ i then a.testBit (i - 16)
      else if 8 ≤ i then b.testBit (i - 8)
      else c.testBit i := by
  simp only [Nat.testBit_or, Nat.testBit_shiftLeft, ge_iff_le]
  by_cases h16 : 16 ≤ i
  · have h8 : 8 ≤ i := by omega
    simp [h16, h8, testBit_lt_256 hb (show 8 ≤ i - 8 by omega),
      testBit_lt_256 hc h8]
  · by_cases h8 : 8 ≤ i
    · simp [h16, h8, testBit_lt_256 hc h8]
    · simp [h16, h8]

lemma or3_xor_high (a b c p : Nat) (hb : b < 256) (hc : c < 256) :
    ((a ^^^ p) <<< 16) ||| (b <<< 8) ||| c =
      ((a <<< 16) ||| (b <<< 8) ||| c) ^^^ (p <<< 16) := by
  apply Nat.eq_of_testBit_eq
  intro i
  rw [Nat.testBit_xor, testBit_or3 _ _ _ hb hc, testBit_or3 _ _ _ hb hc]
  by_cases h16 : 16 ≤ i
  · simp [h16, Nat.testBit_xor, Nat.testBit_shiftLeft]
  · by_cases h8 : 8 ≤ i <;> simp [h16, h8, Nat.testBit_shiftLeft]

lemma or3_xor_mid (a b c p : Nat) (hb : b < 256) (hc : c < 256) (hp : p < 256) :
    (a <<< 16) ||| ((b ^^^ p) <<< 8) ||| c =
      ((a <<< 16) ||| (b <<< 8) ||| c) ^^^ (p <<< 8) := by
  apply Nat.eq_of_testBit_eq
  intro i
  rw [Nat.testBit_xor, testBit_or3 _ _ _ (xor_lt_256 hb hp) hc,
    testBit_or3 _ _ _ hb hc]
  by_cases h16 : 16 ≤ i
  · have h8 : 8 ≤ i := by omega
    simp [h16, h8, Nat.testBit_shiftLeft,
      testBit_lt_256 hp (show 8 ≤ i - 8 by omega)]
  · by_cases h8 : 8 ≤ i <;>
      simp [h16, h8, Nat.testBit_shiftLeft, Nat.testBit_xor]

lemma or3_xor_low (a b c p : Nat) (hb : b < 256) (hc : c < 256) (hp : p < 256) :
    (a <<< 16) ||| (b <<< 8) ||| (c ^^^ p) =
      ((a <<< 16) ||| (b <<< 8) ||| c) ^^^ p := by
  apply Nat.eq_of_testBit_eq
  intro i
  rw [Nat.testBit_xor, testBit_or3 _ _ _ hb (xor_lt_256 hc hp),
    testBit_or3 _ _ _ hb hc]
  by_cases h16 : 16 ≤ i
  · have h8 : 8 ≤ i := by omega
    simp [h16, h8, testBit_lt_256 hp h8]
  · by_cases h8 : 8 ≤ i
    · simp [h16, h8, testBit_lt_256 hp h8]
    · simp [h16, h8, Nat.testBit_xor]

lemma extract_crc_flip112 (msg : List Nat) (hlen : msg.length = 14)
    (hbytes : ∀ b ∈ msg, b < 256) {k : Nat} (hk : k < 112) :
    extract_crc (flip_bit msg k) 112 =
      extract_crc msg 112 ^^^ (if 88 ≤ k then 2 ^ (111 - k) else 0) := by
  have hb12 := byteAt_lt_256 msg hbytes 12
  have hb13 := byteAt_lt_256 msg hbytes 13
  have hp : (1 <<< (7 - k % 8)) < 256 := by
    rw [Nat.one_shiftLeft]
    calc 2 ^ (7 - k % 8) ≤ 2 ^ 7 := Nat.pow_le_pow_right (by norm_num) (by omega)
    _ < 256 := by norm_num
  rw [extract_crc_112, extract_crc_112, flip_bit]
  rcases lt_or_ge k 88 with h88 | h88
  · rw [byteAt_set_ne _ _ (show k / 8 ≠ 11 by omega),
      byteAt_set_ne _ _ (show k / 8 ≠ 12 by omega),
      byteAt_set_ne _ _ (show k / 8 ≠ 13 by omega),
      if_neg (by omega), Nat.xor_zero]
  · rw [if_pos h88]
    rcases lt_or_ge k 96 with h96 | h96
    · have hb : k / 8 = 11 := by omega
      have h11 : (11 : Nat) < msg.length := by rw [hlen]; norm_num
      have hmask : (1 <<< (7 - k % 8)) <<< 16 = 2 ^ (111 - k) := by
        rw [Nat.one_shiftLeft, Nat.shiftLeft_eq, ← pow_add]
        congr 1
        omega
      rw [hb, byteAt_set_self _ _ _ h11,
        byteAt_set_ne _ _ (show (11 : Nat) ≠ 12 by norm_num),
        byteAt_set_ne _ _ (show (11 : Nat) ≠ 13 by norm_num),
        or3_xor_high _ _ _ _ hb12 hb13, hmask]
    · rcases lt_or_ge k 104 with h104 | h104
      · have hb : k / 8 = 12 := by omega
        have h12 : (12 : Nat) < msg.length := by rw [hlen]; norm_num
        have hmask : (1 <<< (7 - k % 8)) <<< 8 = 2 ^ (111 - k) := by
          rw [Nat.one_shiftLeft, Nat.shiftLeft_eq, ← pow_add]
          congr 1
          omega
        rw [hb, byteAt_set_ne _ _ (show (12 : Nat) ≠ 11 by norm_num),
          byteAt_set_self _ _ _ h12,
          byteAt_set_ne _ _ (show (12 : Nat) ≠ 13 by norm_num),
          or3_xor_mid _ _ _ _ hb12 hb13 hp, hmask]
      · have hb : k / 8 = 13 := by omega
        have h13 : (13 : Nat) < msg.length := by rw [hlen]; norm_num
        have hmask : 1 <<< (7 - k % 8) = 2 ^ (111 - k) := by
          rw [Nat.one_shiftLeft]
          congr 1
          omega
        rw [hb, byteAt_set_ne _ _ (show (13 : Nat) ≠ 11 by norm_num),
          byteAt_set_ne _ _ (show (13 : Nat) ≠ 12 by norm_num),
          byteAt_set_self _ _ _ h13,
          or3_xor_low _ _ _ _ hb12 hb13 hp, hmask]

/-- The 24-bit syndrome of a 112-bit frame: checksum XOR extracted
CRC.  It vanishes exactly on CRC-valid frames. -/
def syndrome (msg : List Nat) : Nat :=
  modes_checksum msg 112 ^^^ extract_crc msg 112

/-- The syndrome contribution of a single flipped bit. -/
def bitSyndrome (k : Nat) : Nat :=
  tableAt k ^^^ (if 88 ≤ k then 2 ^ (111 - k) else 0)

lemma syndrome_flip (msg : List Nat) (hlen : msg.length = 14)
    (hbytes : ∀ b ∈ msg, b < 256) {k : Nat} (hk : k < 112) :
    syndrome (flip_bit msg k) = syndrome msg ^^^ bitSyndrome k := by
  rw [syndrome, syndrome, modes_checksum_flip112 msg hlen hk,
    extract_crc_flip112 msg hlen hbytes hk, bitSyndrome, nat_xor_mix]

lemma verify_iff_syndrome (msg : List Nat) :
    verify_crc msg 112 = true ↔ syndrome msg = 0 := by
  rw [verify_crc, syndrome, beq_iff_eq, Nat.xor_eq_zero, eq_comm]

set_option maxHeartbeats 4000000 in
lemma bitSyndrome_nodup : ((List.range 112).map bitSyndrome).Nodup := by decide

set_option maxHeartbeats 2000000 in
lemma bitSyndrome_ne_zero : ∀ k, k < 112 → bitSyndrome k ≠ 0 := by decide

lemma bitSyndrome_inj {j k : Nat} (hj : j < 112) (hk : k < 112)
    (h : bitSyndrome j = bitSyndrome k) : j = k :=
  List.inj_on_of_nodup_map bitSyndrome_nodup (List.mem_range.2 hj)
    (List.mem_range.2 hk) h

lemma find?_eq_some_of_unique {p : Nat → Bool} {l : List Nat} {k : Nat}
    (hmem : k ∈ l) (huniq : ∀ j ∈ l, (p j = true ↔ j = k)) :
    l.find? p = some k := by
  induction l with
  | nil => cases hmem
  | cons a l ih =>
    by_cases ha : p a = true
    · have hak : a = k := (huniq a (List.mem_cons_self a l)).1 ha
      rw [List.find?_cons_of_pos _ ha, hak]
    · have hak : a ≠ k := fun h => ha ((huniq a (List.mem_cons_self a l)).2 h)
      have hmem' : k ∈ l := by
        rcases List.mem_cons.1 hmem with h | h
        · exact absurd h.symm hak
        · exact h
      rw [List.find?_cons_of_neg _ ha]
      exact ih hmem' (fun j hj => huniq j (List.mem_cons_of_mem a hj))

/-- The valid DF17 test frame used by the repository's own tests
(`*8D4840D6202CC371C32CE0576098;`). -/
def test_frame : List Nat :=
  [0x8D, 0x48, 0x40, 0xD6, 0x20, 0x2C, 0xC3, 0x71, 0xC3, 0x2C, 0xE0, 0x57, 0x60, 0x98]

/-- C3: for every 14-byte frame whose CRC verifies at 112 bits,
`fix_single_bit_errors` finds nothing and leaves the buffer
untouched; and flipping any single bit `k` of such a frame makes
`fix_single_bit_errors` report exactly `k` and restore the original
frame. -/
theorem c3_fix_single_round_trip (F : List Nat) (hlen : F.length = 14)
    (hbytes : ∀ b ∈ F, b < 256) (hvalid : verify_crc F 112 = true) :
    fix_single_bit_errors F 112 = (none, F) ∧
    ∀ k, k < 112 → fix_single_bit_errors (flip_bit F k) 112 = (some k, F) := by
  have hsyn : syndrome F = 0 := (verify_iff_syndrome F).1 hvalid
  constructor
  · have hnone : (List.range 112).find?
        (fun j => verify_crc (flip_bit F j) 112) = none := by
      apply List.find?_eq_none.2
      intro j hj hp
      have hj112 := List.mem_range.1 hj
      have hz := (verify_iff_syndrome _).1 hp
      rw [syndrome_flip F hlen hbytes hj112, hsyn, Nat.zero_xor] at hz
      exact bitSyndrome_ne_zero j hj112 hz
    simp only [fix_single_bit_errors, hnone]
  · intro k hk
    have hClen : (flip_bit F k).length = 14 := by rw [flip_bit_length, hlen]
    have hCbytes := flip_bit_bytes F hbytes k
    have hsynC : syndrome (flip_bit F k) = bitSyndrome k := by
      rw [syndrome_flip F hlen hbytes hk, hsyn, Nat.zero_xor]
    have hfind : (List.range 112).find?
        (fun j => verify_crc (flip_bit (flip_bit F k) j) 112) = some k := by
      apply find?_eq_some_of_unique (List.mem_range.2 hk)
      intro j hj
      have hj112 := List.mem_range.1 hj
      constructor
      · intro hp
        have hz := (verify_iff_syndrome _).1 hp
        rw [syndrome_flip _ hClen hCbytes hj112, hsynC] at hz
        exact (bitSyndrome_inj hk hj112 (Nat.xor_eq_zero.1 hz)).symm
      · intro hjk
        subst hjk
        apply (verify_iff_syndrome _).2
        rw [syndrome_flip _ hClen hCbytes hj112, hsynC, Nat.xor_self]
    simp only [fix_single_bit_errors, hfind, flip_bit_flip_bit]

/-- Witness for C3 at the repository's own DF17 test frame,
exercising the bit position 23 of the spec's scenario 4. -/
theorem c3_fix_single_round_trip_witness :
    verify_crc test_frame 112 = true ∧
    fix_single_bit_errors test_frame 112 = (none, test_frame) ∧
    fix_single_bit_errors (flip_bit test_frame 23) 112 = (some 23, test_frame) :=
  ⟨by decide,
   (c3_fix_single_round_trip test_frame (by decide) (by decide) (by decide)).1,
   (c3_fix_single_round_trip test_frame (by decide) (by decide) (by decide)).2
     23 (by norm_num)⟩

/-! Supporting lemmas for the decoder theorems. -/

lemma padTo14_length (raw : List Nat) : (padTo14 raw).length = 14 := by
  simp [padTo14]
  omega

lemma padTo14_bytes (raw : List Nat) (hbytes : ∀ b ∈ raw, b < 256) :
    ∀ b ∈ padTo14 raw, b < 256 := by
  intro b hb
  rcases List.mem_append.1 hb with h | h
  · exact hbytes b (List.mem_of_mem_take h)
  · rw [List.eq_of_mem_replicate h]
    norm_num

lemma tableAt_lt (j : Nat) : tableAt j < 2 ^ 24 := by
  rcases lt_or_ge j 112 with h | h
  · exact (by decide : ∀ i, i < 112 → tableAt i < 2 ^ 24) j h
  · have hl : MODES_CHECKSUM_TABLE.length = 112 := by decide
    rw [tableAt, List.getD_eq_getElem?_getD, List.getElem?_eq_none (by omega)]
    norm_num

lemma modes_checksum_lt (msg : List Nat) (bits : Nat) :
    modes_checksum msg bits < 2 ^ 24 := by
  rw [modes_checksum]
  have h : ∀ (l : List Nat) (a : Nat) (off : Nat), a < 2 ^ 24 →
      l.foldl (fun crc j => if msgBit msg j then crc ^^^ tableAt (j + off) else crc) a
        < 2 ^ 24 := by
    intro l
    induction l with
    | nil => intro a off ha; exact ha
    | cons j l ih =>
      intro a off ha
      simp only [List.foldl_cons]
      apply ih
      by_cases hb : msgBit msg j
      · simp only [hb, if_pos]
        exact Nat.xor_lt_two_pow ha (tableAt_lt _)
      · simp only [hb]
        simpa using ha
  exact h _ 0 _ (by norm_num)

lemma extract_crc_lt (msg : List Nat) (hbytes : ∀ b ∈ msg, b < 256) (bits : Nat) :
    extract_crc msg bits < 2 ^ 24 := by
  have h1 := byteAt_lt_256 msg hbytes (bits / 8 - 3)
  have h2 := byteAt_lt_256 msg hbytes (bits / 8 - 2)
  have h3 := byteAt_lt_256 msg hbytes (bits / 8 - 1)
  rw [extract_crc]
  apply Nat.or_lt_two_pow
  · apply Nat.or_lt_two_pow
    · rw [Nat.shiftLeft_eq]
      calc byteAt msg (bits / 8 - 3) * 2 ^ 16 < 256 * 2 ^ 16 := by
            exact Nat.mul_lt_mul_of_lt_of_le h1 le_rfl (by norm_num)
      _ = 2 ^ 24 := by norm_num
    · rw [Nat.shiftLeft_eq]
      calc byteAt msg (bits / 8 - 2) * 2 ^ 8 < 256 * 2 ^ 8 := by
            exact Nat.mul_lt_mul_of_lt_of_le h2 le_rfl (by norm_num)
      _ ≤ 2 ^ 24 := by norm_num
  · calc byteAt msg (bits / 8 - 1) < 256 := h3
    _ ≤ 2 ^ 24 := by norm_num

lemma recombine24 {r : Nat} (hr : r < 2 ^ 24) :
    ((((r >>> 16) &&& 0xFF) <<< 16) ||| (((r >>> 8) &&& 0xFF) <<< 8)) |||
      (r &&& 0xFF) = r := by
  have h255 : (0xFF : Nat) = 2 ^ 8 - 1 := by norm_num
  have hb : (r >>> 8) &&& 0xFF < 256 := by
    rw [h255, Nat.and_pow_two_sub_one_eq_mod]
    exact Nat.mod_lt _ (by norm_num)
  have hc : r &&& 0xFF < 256 := by
    rw [h255, Nat.and_pow_two_sub_one_eq_mod]
    exact Nat.mod_lt _ (by norm_num)
  apply Nat.eq_of_testBit_eq
  intro i
  rw [testBit_or3 _ _ _ hb hc]
  by_cases h16 : 16 ≤ i
  · rw [if_pos h16, h255, Nat.and_pow_two_sub_one_eq_mod, Nat.testBit_mod_two_pow,
      Nat.testBit_shiftRight]
    by_cases h24 : i < 24
    · simp [show i - 16 < 8 by omega, show 16 + (i - 16) = i by omega]
    · have hhi : r.testBit i = false :=
        Nat.testBit_lt_two_pow
          (lt_of_lt_of_le hr (Nat.pow_le_pow_right (by norm_num) (by omega)))
      simp [show ¬(i - 16 < 8) by omega, hhi]
  · rw [if_neg h16]
    by_cases h8 : 8 ≤ i
    · rw [if_pos h8, h255, Nat.and_pow_two_sub_one_eq_mod, Nat.testBit_mod_two_pow,
        Nat.testBit_shiftRight]
      simp [show i - 8 < 8 by omega, show 8 + (i - 8) = i by omega]
    · rw [if_neg h8, h255, Nat.and_pow_two_sub_one_eq_mod, Nat.testBit_mod_two_pow]
      simp [show i < 8 by omega]

lemma fix_single_some {msg : List Nat} {bits j : Nat} {msg' : List Nat}
    (h : fix_single_bit_errors msg bits = (some j, msg')) :
    verify_crc msg' bits = true := by
  rw [fix_single_bit_errors] at h
  cases hf : (List.range bits).find? (fun i => verify_crc (flip_bit msg i) bits) with
  | none => rw [hf] at h; simp at h
  | some i =>
    rw [hf] at h
    have hp := List.find?_some hf
    simp only [Prod.mk.injEq, Option.some.injEq] at h
    rw [← h.2]
    exact hp

lemma fix_two_some {msg : List Nat} {bits : Nat} {p : Nat × Nat} {msg' : List Nat}
    (h : fix_two_bit_errors msg bits = (some p, msg')) :
    verify_crc msg' bits = true := by
  rw [fix_two_bit_errors] at h
  cases hf : (twoBitPairs bits).find?
      (fun q => verify_crc (flip_bit (flip_bit msg q.1) q.2) bits) with
  | none => rw [hf] at h; simp at h
  | some q =>
    rw [hf] at h
    have hp := List.find?_some hf
    simp only [Prod.mk.injEq, Option.some.injEq] at h
    rw [← h.2]
    exact hp

lemma decode_extended_squitter_keeps (mm : ModesMessage) :
    (decode_extended_squitter mm).msg = mm.msg ∧
    (decode_extended_squitter mm).msg_bits = mm.msg_bits ∧
    (decode_extended_squitter mm).msg_type = mm.msg_type ∧
    (decode_extended_squitter mm).crc = mm.crc ∧
    (decode_extended_squitter mm).crc_ok = mm.crc_ok ∧
    (decode_extended_squitter mm).aa = mm.aa ∧
    (decode_extended_squitter mm).error_bit = mm.error_bit ∧
    (decode_extended_squitter mm).error_bit2 = mm.error_bit2 := by
  unfold decode_extended_squitter
  try dsimp only
  repeat' split
  all_goals exact ⟨rfl, rfl, rfl, rfl, rfl, rfl, rfl, rfl⟩

lemma decode_fields_keeps (mm : ModesMessage) :
    (decode_fields mm).msg = mm.msg ∧
    (decode_fields mm).msg_bits = mm.msg_bits ∧
    (decode_fields mm).msg_type = mm.msg_type ∧
    (decode_fields mm).crc = mm.crc ∧
    (decode_fields mm).crc_ok = mm.crc_ok ∧
    (decode_fields mm).aa = mm.aa ∧
    (decode_fields mm).error_bit = mm.error_bit ∧
    (decode_fields mm).error_bit2 = mm.error_bit2 := by
  unfold decode_fields
  try dsimp only
  repeat' split
  all_goals simp [decode_extended_squitter_keeps]

lemma decode_crc_phase_msg_type (raw : List Nat) (fe ag : Bool) :
    (decode_crc_phase raw fe ag).msg_type = byteAt (padTo14 raw) 0 >>> 3 := by
  unfold decode_crc_phase
  try dsimp only
  repeat' split
  all_goals rfl

lemma decode_crc_phase_msg_bits (raw : List Nat) (fe ag : Bool) :
    (decode_crc_phase raw fe ag).msg_bits =
      message_len_by_type (byteAt (padTo14 raw) 0 >>> 3) := by
  unfold decode_crc_phase
  try dsimp only
  repeat' split
  all_goals rfl

lemma decode_crc_phase_spec (raw : List Nat) (hbytes : ∀ b ∈ raw, b < 256)
    (fe ag : Bool) :
    ((byteAt (padTo14 raw) 0 >>> 3 = 11 ∨ byteAt (padTo14 raw) 0 >>> 3 = 17 ∨
        byteAt (padTo14 raw) 0 >>> 3 = 18) →
      (decode_crc_phase raw fe ag).aa =
        [byteAt (padTo14 raw) 1, byteAt (padTo14 raw) 2, byteAt (padTo14 raw) 3] ∧
      ((decode_crc_phase raw fe ag).crc_ok = true ↔
        modes_checksum (decode_crc_phase raw fe ag).msg
            (decode_crc_phase raw fe ag).msg_bits =
          extract_crc (decode_crc_phase raw fe ag).msg
            (decode_crc_phase raw fe ag).msg_bits)) ∧
    ((byteAt (padTo14 raw) 0 >>> 3 = 0 ∨ byteAt (padTo14 raw) 0 >>> 3 = 4 ∨
        byteAt (padTo14 raw) 0 >>> 3 = 5 ∨ byteAt (padTo14 raw) 0 >>> 3 = 16 ∨
        byteAt (padTo14 raw) 0 >>> 3 = 20 ∨ byteAt (padTo14 raw) 0 >>> 3 = 21) →
      ((byteAt (decode_crc_phase raw fe ag).aa 0 <<< 16) |||
          (byteAt (decode_crc_phase raw fe ag).aa 1 <<< 8)) |||
          byteAt (decode_crc_phase raw fe ag).aa 2 =
        modes_checksum (padTo14 raw)
            (message_len_by_type (byteAt (padTo14 raw) 0 >>> 3)) ^^^
          extract_crc (padTo14 raw)
            (message_len_by_type (byteAt (padTo14 raw) 0 >>> 3)) ∧
      (decode_crc_phase raw fe ag).crc_ok = false) := by
  have hr24 : modes_checksum (padTo14 raw)
        (message_len_by_type (byteAt (padTo14 raw) 0 >>> 3)) ^^^
      extract_crc (padTo14 raw)
        (message_len_by_type (byteAt (padTo14 raw) 0 >>> 3)) < 2 ^ 24 :=
    Nat.xor_lt_two_pow (modes_checksum_lt _ _)
      (extract_crc_lt _ (padTo14_bytes raw hbytes) _)
  unfold decode_crc_phase
  try dsimp only
  split
  case isTrue hc =>
    simp only [Bool.or_eq_true, beq_iff_eq] at hc
    have habs : ∀ t : Nat, (t = 11 ∨ t = 17) ∨ t = 18 →
        (t = 0 ∨ t = 4 ∨ t = 5 ∨ t = 16 ∨ t = 20 ∨ t = 21) → False := by
      intro t h1 h2
      rcases h1 with (h | h) | h <;>
        rcases h2 with h2 | h2 | h2 | h2 | h2 | h2 <;> omega
    split
    case isTrue hfix =>
      split
      case h_1 bit msg1 heq =>
        have hv := fix_single_some heq
        rw [verify_crc, beq_iff_eq] at hv
        exact ⟨fun _ => ⟨rfl, by simp [hv]⟩, fun h2 => absurd h2 (by
          intro h2
          exact habs _ hc h2)⟩
      case h_2 heq =>
        split
        case isTrue hagg =>
          split
          case h_1 bit1 bit2 msg1 heq2 =>
            have hv := fix_two_some heq2
            rw [verify_crc, beq_iff_eq] at hv
            exact ⟨fun _ => ⟨rfl, by simp [hv]⟩, fun h2 => absurd h2 (by
              intro h2
              exact habs _ hc h2)⟩
          case h_2 heq2 =>
            refine ⟨fun _ => ⟨rfl, ?_⟩, fun h2 => absurd h2 (by
              intro h2
              exact habs _ hc h2)⟩
            rw [beq_iff_eq]
            exact eq_comm
        case isFalse hagg =>
          refine ⟨fun _ => ⟨rfl, ?_⟩, fun h2 => absurd h2 (by
            intro h2
            exact habs _ hc h2)⟩
          rw [beq_iff_eq]
          exact eq_comm
    case isFalse hfix =>
      refine ⟨fun _ => ⟨rfl, ?_⟩, fun h2 => absurd h2 (by
        intro h2
        exact habs _ hc h2)⟩
      rw [beq_iff_eq]
      exact eq_comm
  case isFalse hc =>
    simp only [Bool.or_eq_true, beq_iff_eq, not_or] at hc
    constructor
    · intro h1
      exfalso
      obtain ⟨⟨n1, n2⟩, n3⟩ := hc
      rcases h1 with h | h | h <;> omega
    · intro _
      refine ⟨?_, rfl⟩
      simp only [byteAt, List.getD_cons_zero, List.getD_cons_succ]
      exact recombine24 hr24

/-- C1: `decode_modes_message` binds the ICAO address according to
the downlink format.  For DF11/DF17/DF18 the `aa` field is bytes 1-3
of the (padded) input frame and `crc_ok` holds exactly when the
checksum of the returned buffer equals its extracted CRC (after a
successful repair the returned buffer is the repaired one); for
DF0/DF4/DF5/DF16/DF20/DF21 the address is the checksum XORed with the
extracted CRC of the frame and `crc_ok` is false. -/
theorem c1_icao_binding (raw : List Nat) (hbytes : ∀ b ∈ raw, b < 256)
    (fix_errors aggressive : Bool) (mm : ModesMessage)
    (hmm : mm = decode_modes_message raw fix_errors aggressive) :
    ((mm.msg_type = 11 ∨ mm.msg_type = 17 ∨ mm.msg_type = 18) →
      mm.aa = [byteAt (padTo14 raw) 1, byteAt (padTo14 raw) 2, byteAt (padTo14 raw) 3] ∧
      (mm.crc_ok = true ↔
        modes_checksum mm.msg mm.msg_bits = extract_crc mm.msg mm.msg_bits)) ∧
    ((mm.msg_type = 0 ∨ mm.msg_type = 4 ∨ mm.msg_type = 5 ∨ mm.msg_type = 16 ∨
        mm.msg_type = 20 ∨ mm.msg_type = 21) →
      mm.icao_address =
        modes_checksum (padTo14 raw) mm.msg_bits ^^^
          extract_crc (padTo14 raw) mm.msg_bits ∧
      mm.crc_ok = false) := by
  obtain ⟨k1, k2, k3, -, k5, k6, -, -⟩ :=
    decode_fields_keeps (decode_crc_phase raw fix_errors aggressive)
  rw [decode_modes_message] at hmm
  subst hmm
  obtain ⟨s1, s2⟩ := decode_crc_phase_spec raw hbytes fix_errors aggressive
  rw [ModesMessage.icao_address, k1, k2, k3, k5, k6, decode_crc_phase_msg_type,
    decode_crc_phase_msg_bits]
  rw [decode_crc_phase_msg_bits] at s1
  exact ⟨s1, s2⟩

/-- The DF4 test frame of the repository's tests (`*20000f1f684a6c;`). -/
def df4_frame : List Nat := [0x20, 0x00, 0x0f, 0x1f, 0x68, 0x4a, 0x6c]

/-- Witness for C1: the DF17 test frame takes the bytes-1-3 branch
and the DF4 test frame takes the CRC-XOR recovery branch. -/
theorem c1_icao_binding_witness :
    ((decode_modes_message test_frame true false).aa =
      [byteAt (padTo14 test_frame) 1, byteAt (padTo14 test_frame) 2,
       byteAt (padTo14 test_frame) 3] ∧
     ((decode_modes_message test_frame true false).crc_ok = true ↔
       modes_checksum (decode_modes_message test_frame true false).msg
           (decode_modes_message test_frame true false).msg_bits =
         extract_crc (decode_modes_message test_frame true false).msg
           (decode_modes_message test_frame true false).msg_bits)) ∧
    ((decode_modes_message df4_frame true false).icao_address =
      modes_checksum (padTo14 df4_frame)
          (decode_modes_message df4_frame true false).msg_bits ^^^
        extract_crc (padTo14 df4_frame)
          (decode_modes_message df4_frame true false).msg_bits ∧
     (decode_modes_message df4_frame true false).crc_ok = false) :=
  ⟨(c1_icao_binding test_frame (by decide) true false _ rfl).1 (by decide),
   (c1_icao_binding df4_frame (by decide) true false _ rfl).2 (by decide)⟩

/-- C2: the demodulator accept/drop step.  A CRC-validated
DF11/DF17/DF18 record inserts its address into the known-ICAO set and
is forwarded unchanged; a DF0/4/5/16/20/21 record is forwarded with
`crc_ok` set to true exactly when its recovered address is already in
the set, and is dropped otherwise. -/
theorem c2_dispatch (mm : ModesMessage) (known : List Nat) :
    ((mm.msg_type = 11 ∨ mm.msg_type = 17 ∨ mm.msg_type = 18) →
      mm.crc_ok = true →
      try_decode_dispatch mm known = (known.insert mm.icao_address, some mm)) ∧
    ((mm.msg_type = 0 ∨ mm.msg_type = 4 ∨ mm.msg_type = 5 ∨ mm.msg_type = 16 ∨
        mm.msg_type = 20 ∨ mm.msg_type = 21) →
      ((try_decode_dispatch mm known).2 = some { mm with crc_ok := true } ↔
        mm.icao_address ∈ known) ∧
      (mm.icao_address ∉ known → try_decode_dispatch mm known = (known, none))) := by
  constructor
  · intro hdf hok
    have hb : (mm.msg_type == 11 || mm.msg_type == 17 || mm.msg_type == 18) = true := by
      rcases hdf with h | h | h <;> simp [h]
    rw [try_decode_dispatch]
    simp only [hok, hb, Bool.and_self, if_pos]
  · intro hdf
    have hb : (mm.msg_type == 11 || mm.msg_type == 17 || mm.msg_type == 18) = false := by
      rcases hdf with h | h | h | h | h | h <;> simp [h]
    rw [try_decode_dispatch]
    simp only [hb, Bool.and_false, Bool.not_false, if_true,
      Bool.false_eq_true, if_false]
    constructor
    · by_cases hmem : mm.icao_address ∈ known
      · simp [List.contains, hmem]
      · simp [List.contains, hmem]
    · intro hmem
      simp [List.contains, hmem]

/-- Witness for C2: a CRC-valid DF11 record is inserted and
forwarded; a DF4 record is forwarded exactly when its recovered
address (5) is known, and dropped against the empty set. -/
theorem c2_dispatch_witness :
    (try_decode_dispatch { ModesMessage.default with msg_type := 11, crc_ok := true } [] =
      (([] : List Nat).insert
        ({ ModesMessage.default with msg_type := 11, crc_ok := true } :
          ModesMessage).icao_address,
       some { ModesMessage.default with msg_type := 11, crc_ok := true })) ∧
    ((try_decode_dispatch { ModesMessage.default with msg_type := 4, aa := [0, 0, 5] }
        [5]).2 =
      some { ModesMessage.default with msg_type := 4, aa := [0, 0, 5], crc_ok := true }) ∧
    (try_decode_dispatch { ModesMessage.default with msg_type := 4, aa := [0, 0, 5] } [] =
      ([], none)) :=
  ⟨(c2_dispatch _ []).1 (Or.inl rfl) rfl,
   ((c2_dispatch _ [5]).2 (Or.inr (Or.inl rfl))).1.2 (by decide),
   ((c2_dispatch _ []).2 (Or.inr (Or.inl rfl))).2 (by decide)⟩

lemma message_len_cases (df : Nat) :
    message_len_by_type df = 56 ∨ message_len_by_type df = 112 := by
  unfold message_len_by_type
  split
  all_goals first
  | exact Or.inr rfl
  | exact Or.inl rfl

lemma fix_single_snd_length (msg : List Nat) (bits : Nat) :
    (fix_single_bit_errors msg bits).2.length = msg.length := by
  rw [fix_single_bit_errors]
  cases (List.range bits).find? (fun j => verify_crc (flip_bit msg j) bits) with
  | some j => exact flip_bit_length msg j
  | none => rfl

lemma fix_two_snd_length (msg : List Nat) (bits : Nat) :
    (fix_two_bit_errors msg bits).2.length = msg.length := by
  rw [fix_two_bit_errors]
  cases (twoBitPairs bits).find?
      (fun p => verify_crc (flip_bit (flip_bit msg p.1) p.2) bits) with
  | some p => rw [flip_bit_length, flip_bit_length]
  | none => rfl

lemma decode_crc_phase_msg_length (raw : List Nat) (fe ag : Bool) :
    (decode_crc_phase raw fe ag).msg.length = 14 := by
  unfold decode_crc_phase
  try dsimp only
  split
  · split
    · split
      case h_1 bit msg1 heq =>
        have h := fix_single_snd_length (padTo14 raw)
          (message_len_by_type (byteAt (padTo14 raw) 0 >>> 3))
        rw [heq] at h
        dsimp at h ⊢
        rw [h, padTo14_length]
      case h_2 heq =>
        split
        · split
          case h_1 bit1 bit2 msg1 heq2 =>
            have h := fix_two_snd_length (padTo14 raw)
              (message_len_by_type (byteAt (padTo14 raw) 0 >>> 3))
            rw [heq2] at h
            dsimp at h ⊢
            rw [h, padTo14_length]
          case h_2 heq2 => exact padTo14_length raw
        · exact padTo14_length raw
    · exact padTo14_length raw
  · exact padTo14_length raw

lemma padTo14_take (raw : List Nat) : padTo14 (raw.take 14) = padTo14 raw := by
  unfold padTo14
  rw [List.take_take, List.length_take]
  have h1 : min 14 14 = 14 := min_self 14
  have h2 : 14 - min 14 raw.length = 14 - raw.length := by
    rcases Nat.le_total 14 raw.length with h' | h'
    · rw [min_eq_left h']
      omega
    · rw [min_eq_right h']
  rw [h1, h2]

lemma padTo14_idem (raw : List Nat) : padTo14 (padTo14 raw) = padTo14 raw := by
  conv_lhs => rw [padTo14]
  rw [List.take_of_length_le (le_of_eq (padTo14_length raw)), padTo14_length]
  simp

lemma decode_modes_message_congr {raw raw' : List Nat} (fe ag : Bool)
    (h : padTo14 raw = padTo14 raw') :
    decode_modes_message raw fe ag = decode_modes_message raw' fe ag := by
  unfold decode_modes_message decode_crc_phase
  rw [h]

/-- C10: `decode_modes_message` is total over arbitrary byte slices:
it copies at most 14 bytes (the result only depends on the first 14
bytes, zero-extended), always returns a 14-byte buffer, and always
reports `msg_bits` of 56 or 112 and `msg_type` equal to the top five
bits of byte 0 of the zero-padded buffer. -/
theorem c10_total_decode (raw : List Nat) (fix_errors aggressive : Bool) :
    ((decode_modes_message raw fix_errors aggressive).msg_bits = 56 ∨
      (decode_modes_message raw fix_errors aggressive).msg_bits = 112) ∧
    (decode_modes_message raw fix_errors aggressive).msg_type =
      byteAt (padTo14 raw) 0 >>> 3 ∧
    (decode_modes_message raw fix_errors aggressive).msg.length = 14 ∧
    decode_modes_message raw fix_errors aggressive =
      decode_modes_message (raw.take 14) fix_errors aggressive ∧
    decode_modes_message raw fix_errors aggressive =
      decode_modes_message (padTo14 raw) fix_errors aggressive := by
  obtain ⟨k1, k2, k3, -, -, -, -, -⟩ :=
    decode_fields_keeps (decode_crc_phase raw fix_errors aggressive)
  rw [decode_modes_message, k1, k2, k3, decode_crc_phase_msg_type,
    decode_crc_phase_msg_bits, decode_crc_phase_msg_length]
  refine ⟨message_len_cases _, rfl, rfl, ?_, ?_⟩
  · rw [← decode_modes_message, decode_modes_message_congr fix_errors aggressive
      (padTo14_take raw).symm]
  · rw [← decode_modes_message, decode_modes_message_congr fix_errors aggressive
      (padTo14_idem raw).symm]

/-- First hit of an ordered list of probe results (the spec's "the
first that satisfies its structural checks wins"). -/
def first_some {α : Type} : List (Option α) → Option α
  | [] => none
  | some x :: _ => some x
  | none :: rest => first_some rest

/-- The spec's probe order for the Comm-B MB field, stated as data:
BDS 2,0 then 4,0 then 5,0 then 6,0 then 3,0 then 1,0. -/
def bds_probe_spec_result (mb : List Nat) : Option BdsData :=
  first_some [try_decode_bds_20 mb, try_decode_bds_40 mb, try_decode_bds_50 mb,
    try_decode_bds_60 mb, try_decode_bds_30 mb, try_decode_bds_10 mb]

/-- C8: for any frame long enough to carry an MB field,
`decode_mb_field` returns the first probe hit in the spec's order
2,0 - 4,0 - 5,0 - 6,0 - 3,0 - 1,0, and `Unknown` with the raw seven
MB bytes when every probe fails. -/
theorem c8_mb_probe_order (msg : List Nat) (h : 11 ≤ msg.length) :
    decode_mb_field msg =
      some ((bds_probe_spec_result ((msg.drop 4).take 7)).getD
        (BdsData.Unknown 0x00 ((msg.drop 4).take 7))) := by
  rw [decode_mb_field, if_neg (by omega)]
  rw [bds_probe_spec_result]
  try dsimp only
  cases try_decode_bds_20 ((msg.drop 4).take 7) with
  | some b => rfl
  | none =>
    cases try_decode_bds_40 ((msg.drop 4).take 7) with
    | some b => rfl
    | none =>
      cases try_decode_bds_50 ((msg.drop 4).take 7) with
      | some b => rfl
      | none =>
        cases try_decode_bds_60 ((msg.drop 4).take 7) with
        | some b => rfl
        | none =>
          cases try_decode_bds_30 ((msg.drop 4).take 7) with
          | some b => rfl
          | none =>
            cases try_decode_bds_10 ((msg.drop 4).take 7) with
            | some b => rfl
            | none => rfl

/-- Witness for C8 on a DF20 frame whose MB field is the spec's
BDS 1,0 example bytes. -/
theorem c8_mb_probe_order_witness :
    decode_mb_field (padTo14 [0xA0, 0, 0, 0, 0x10, 0, 0, 0, 0, 0, 0, 0, 0, 0]) =
      some ((bds_probe_spec_result
        (((padTo14 [0xA0, 0, 0, 0, 0x10, 0, 0, 0, 0, 0, 0, 0, 0, 0]).drop 4).take 7)).getD
        (BdsData.Unknown 0x00
          (((padTo14 [0xA0, 0, 0, 0, 0x10, 0, 0, 0, 0, 0, 0, 0, 0, 0]).drop 4).take 7))) :=
  c8_mb_probe_order _ (by decide)

/-! Supporting lemmas for the CPR theorems. -/

lemma tmod_bounds (a : Int) {b : Int} (hb : 0 < b) :
    -b < Int.tmod a b ∧ Int.tmod a b < b := by
  rcases le_or_lt 0 a with ha | ha
  · have h1 := Int.tmod_nonneg b ha
    have h2 := Int.tmod_lt_of_pos a hb
    omega
  · obtain ⟨m, rfl⟩ := Int.eq_negSucc_of_lt_zero ha
    obtain ⟨n, rfl⟩ := Int.eq_succ_of_zero_lt hb
    have he : Int.tmod (Int.negSucc m) ((n.succ : Nat) : Int) =
        -(((m + 1) % (n + 1) : Nat) : Int) := rfl
    have hlt : (m + 1) % (n + 1) < n + 1 := Nat.mod_lt _ (Nat.succ_pos n)
    rw [he]
    omega

lemma cpr_mod_bounds (a : Int) {b : Int} (hb : 0 < b) :
    0 ≤ cpr_mod a b ∧ cpr_mod a b < b := by
  obtain ⟨h1, h2⟩ := tmod_bounds a hb
  unfold cpr_mod
  try dsimp only
  split <;> omega

lemma cpr_n_pos (lat : ℚ) (o : Bool) : 0 < cpr_n lat o := by
  unfold cpr_n
  try dsimp only
  split
  next h => omega
  next h => omega

lemma cpr_rlat0_bounds (ac : Aircraft) (h : ac.even_cprlat < 131072) :
    -90 ≤ cpr_rlat0 ac ∧ cpr_rlat0 ac < 270 := by
  obtain ⟨h1, h2⟩ := cpr_mod_bounds (cpr_j ac) (show (0 : Int) < 60 by norm_num)
  have hM0 : (0 : ℚ) ≤ (cpr_mod (cpr_j ac) 60 : ℚ) := by exact_mod_cast h1
  have hM : (cpr_mod (cpr_j ac) 60 : ℚ) ≤ 59 := by
    have : cpr_mod (cpr_j ac) 60 ≤ 59 := by omega
    exact_mod_cast this
  have hf0 : (0 : ℚ) ≤ (ac.even_cprlat : ℚ) / 131072 := by positivity
  have hf : (ac.even_cprlat : ℚ) / 131072 < 1 := by
    rw [div_lt_one (by norm_num)]
    exact_mod_cast h
  unfold cpr_rlat0
  try dsimp only
  split
  next hge => constructor <;> nlinarith [hM, hf, hM0, hf0]
  next hlt =>
    push_neg at hlt
    constructor <;> nlinarith [hM, hf, hM0, hf0]

lemma cpr_rlat1_bounds (ac : Aircraft) (h : ac.odd_cprlat < 131072) :
    -90 ≤ cpr_rlat1 ac ∧ cpr_rlat1 ac < 270 := by
  obtain ⟨h1, h2⟩ := cpr_mod_bounds (cpr_j ac) (show (0 : Int) < 59 by norm_num)
  have hM0 : (0 : ℚ) ≤ (cpr_mod (cpr_j ac) 59 : ℚ) := by exact_mod_cast h1
  have hM : (cpr_mod (cpr_j ac) 59 : ℚ) ≤ 58 := by
    have : cpr_mod (cpr_j ac) 59 ≤ 58 := by omega
    exact_mod_cast this
  have hf0 : (0 : ℚ) ≤ (ac.odd_cprlat : ℚ) / 131072 := by positivity
  have hf : (ac.odd_cprlat : ℚ) / 131072 < 1 := by
    rw [div_lt_one (by norm_num)]
    exact_mod_cast h
  unfold cpr_rlat1
  try dsimp only
  split
  next hge => constructor <;> nlinarith [hM, hf, hM0, hf0]
  next hlt =>
    push_neg at hlt
    constructor <;> nlinarith [hM, hf, hM0, hf0]

lemma cpr_lon_pre_bounds (lat : ℚ) (o : Bool) (m : Int) (lonRaw : Nat)
    (hlon : lonRaw < 131072) :
    0 ≤ cpr_dlon lat o * ((cpr_mod m (cpr_n lat o) : ℚ) + (lonRaw : ℚ) / 131072) ∧
    cpr_dlon lat o * ((cpr_mod m (cpr_n lat o) : ℚ) + (lonRaw : ℚ) / 131072) < 360 := by
  have hni := cpr_n_pos lat o
  obtain ⟨h1, h2⟩ := cpr_mod_bounds m hni
  have hniq : (0 : ℚ) < (cpr_n lat o : ℚ) := by exact_mod_cast hni
  have hM0 : (0 : ℚ) ≤ (cpr_mod m (cpr_n lat o) : ℚ) := by exact_mod_cast h1
  have hM : (cpr_mod m (cpr_n lat o) : ℚ) ≤ (cpr_n lat o : ℚ) - 1 := by
    have h3 : cpr_mod m (cpr_n lat o) ≤ cpr_n lat o - 1 := by omega
    calc ((cpr_mod m (cpr_n lat o) : Int) : ℚ) ≤ ((cpr_n lat o - 1 : Int) : ℚ) := by
          exact_mod_cast h3
    _ = (cpr_n lat o : ℚ) - 1 := by push_cast; ring
  have hf0 : (0 : ℚ) ≤ (lonRaw : ℚ) / 131072 := by positivity
  have hf : (lonRaw : ℚ) / 131072 < 1 := by
    rw [div_lt_one (by norm_num)]
    exact_mod_cast hlon
  have hd : cpr_dlon lat o = 360 / (cpr_n lat o : ℚ) := rfl
  constructor
  · rw [hd]
    exact mul_nonneg (by positivity) (add_nonneg hM0 hf0)
  · rw [hd]
    have hx : (cpr_mod m (cpr_n lat o) : ℚ) + (lonRaw : ℚ) / 131072 <
        (cpr_n lat o : ℚ) := by linarith
    calc 360 / (cpr_n lat o : ℚ) *
          ((cpr_mod m (cpr_n lat o) : ℚ) + (lonRaw : ℚ) / 131072)
        < 360 / (cpr_n lat o : ℚ) * (cpr_n lat o : ℚ) :=
          mul_lt_mul_of_pos_left hx (by positivity)
    _ = 360 := div_mul_cancel₀ 360 (ne_of_gt hniq)

/-- The first staging step of the spec's scenario 2: odd fragment
raw_lat 74158 / raw_lon 50194 at instant 20 on a fresh aircraft. -/
def c4_s1 : Aircraft :=
  stage_fragment (Aircraft.new 0x4840D6 0) true 74158 50194 5000 20

/-- The second staging step: even fragment raw_lat 93000 /
raw_lon 51372 at instant 25 (within 10 s, even newer). -/
def c4_s2 : Aircraft := stage_fragment c4_s1 false 93000 51372 5000 25

/-- The aircraft state of the spec's scenario 2 after both updates. -/
def c4_scenario : Aircraft :=
  update_position_fragment
    (update_position_fragment (Aircraft.new 0x4840D6 0) true 74158 50194 5000 20)
    false 93000 51372 5000 25

lemma c4_scenario_eq : c4_scenario = decode_cpr c4_s2 := by
  have h1 : update_position_fragment (Aircraft.new 0x4840D6 0) true 74158 50194
      5000 20 = c4_s1 := by
    rw [update_position_fragment]
    try dsimp only
    rw [show stage_fragment (Aircraft.new 0x4840D6 0) true 74158 50194 5000 20 = c4_s1
      from rfl]
    rw [if_neg (by decide)]
  rw [c4_scenario, h1, update_position_fragment]
  try dsimp only
  rw [show stage_fragment c4_s1 false 93000 51372 5000 25 = c4_s2 from rfl]
  rw [if_pos (by decide)]

lemma c4_j : cpr_j c4_s2 = 8 := by
  rw [cpr_j, show c4_s2.even_cprlat = 93000 from rfl,
    show c4_s2.odd_cprlat = 74158 from rfl, Int.floor_eq_iff]
  push_cast
  norm_num

lemma c4_rlat0 : cpr_rlat0 c4_s2 = 428091 / 8192 := by
  rw [cpr_rlat0, c4_j, show cpr_mod 8 60 = 8 from by decide,
    show c4_s2.even_cprlat = 93000 from rfl]
  try dsimp only
  rw [if_neg (by push_cast; norm_num)]
  push_cast
  norm_num

lemma c4_rlat1 : cpr_rlat1 c4_s2 = 25261515 / 483328 := by
  rw [cpr_rlat1, c4_j, show cpr_mod 8 59 = 8 from by decide,
    show c4_s2.odd_cprlat = 74158 from rfl]
  try dsimp only
  rw [if_neg (by push_cast; norm_num)]
  push_cast
  norm_num

lemma c4_nl0 : cpr_nl (cpr_rlat0 c4_s2) = 36 := by
  rw [c4_rlat0, cpr_nl,
    abs_of_nonneg (by norm_num : (0 : ℚ) ≤ 428091 / 8192)]
  norm_num

lemma c4_nl1 : cpr_nl (cpr_rlat1 c4_s2) = 36 := by
  rw [c4_rlat1, cpr_nl,
    abs_of_nonneg (by norm_num : (0 : ℚ) ≤ 25261515 / 483328)]
  norm_num

lemma c4_n : cpr_n (cpr_rlat0 c4_s2) false = 36 := by
  rw [cpr_n]
  try dsimp only
  rw [c4_nl0]
  norm_num

lemma c4_lat_lon : (decode_cpr c4_s2).lat = 428091 / 8192 ∧
    (decode_cpr c4_s2).lon = 64215 / 16384 := by
  have hm : Int.floor (((c4_s2.even_cprlon : ℚ) * ((cpr_nl (cpr_rlat0 c4_s2) : ℚ) - 1) -
      (c4_s2.odd_cprlon : ℚ) * (cpr_nl (cpr_rlat0 c4_s2) : ℚ)) / 131072 + 1/2) = 0 := by
    rw [c4_nl0, show c4_s2.even_cprlon = 51372 from rfl,
      show c4_s2.odd_cprlon = 50194 from rfl, Int.floor_eq_iff]
    push_cast
    norm_num
  rw [decode_cpr]
  try dsimp only
  rw [if_neg (by rw [c4_nl0, c4_nl1]; exact fun h => h rfl)]
  rw [if_pos (by decide : c4_s2.even_cprtime > c4_s2.odd_cprtime)]
  try dsimp only
  rw [hm, show cpr_mod 0 (cpr_n (cpr_rlat0 c4_s2) false) = 0 from by rw [c4_n]; decide,
    cpr_dlon, c4_n, c4_rlat0, show c4_s2.even_cprlon = 51372 from rfl]
  rw [if_neg (by push_cast; norm_num)]
  constructor
  · rfl
  · push_cast
    norm_num

/-- Counterexample for C4: the committed longitude of the scenario is
64215/16384 (about 3.9194), not below 1.5, so the claimed interval
(-1.0, 1.5) is wrong. -/
theorem c4_cpr_scenario_counterexample : ¬ c4_scenario.lon < 3 / 2 := by
  rw [c4_scenario_eq, c4_lat_lon.2]
  norm_num

/-- C4 (amended): the scenario commits a latitude strictly within
(51.0, 52.5) and a longitude strictly within (3.5, 4.5) (the solved
position is about 52.2572 N, 3.9194 E). -/
theorem c4_cpr_scenario :
    51 < c4_scenario.lat ∧ c4_scenario.lat < 52.5 ∧
    3.5 < c4_scenario.lon ∧ c4_scenario.lon < 4.5 := by
  rw [c4_scenario_eq, c4_lat_lon.1, c4_lat_lon.2]
  norm_num

/-- C5: the CPR solve is invoked only when the staged fragments are
at most 10 seconds apart (otherwise the update is staging only); an
NL-zone mismatch between the two intermediate latitudes aborts the
solve with the aircraft unchanged; and the solve never clears the
staged fragments. -/
theorem c5_cpr_gating :
    (∀ (ac : Aircraft) (f : Bool) (rlat rlon : Nat) (alt : Int) (now : Nat),
      10 < cpr_time_diff (stage_fragment ac f rlat rlon alt now) →
      update_position_fragment ac f rlat rlon alt now =
        stage_fragment ac f rlat rlon alt now) ∧
    (∀ ac : Aircraft, cpr_nl (cpr_rlat0 ac) ≠ cpr_nl (cpr_rlat1 ac) →
      decode_cpr ac = ac) ∧
    (∀ ac : Aircraft,
      (decode_cpr ac).odd_cprlat = ac.odd_cprlat ∧
      (decode_cpr ac).odd_cprlon = ac.odd_cprlon ∧
      (decode_cpr ac).odd_cprtime = ac.odd_cprtime ∧
      (decode_cpr ac).even_cprlat = ac.even_cprlat ∧
      (decode_cpr ac).even_cprlon = ac.even_cprlon ∧
      (decode_cpr ac).even_cprtime = ac.even_cprtime) := by
  refine ⟨?_, ?_, ?_⟩
  · intro ac f rlat rlon alt now h
    rw [update_position_fragment]
    try dsimp only
    rw [if_neg (by omega)]
  · intro ac h
    rw [decode_cpr]
    try dsimp only
    rw [if_pos h]
  · intro ac
    rw [decode_cpr]
    try dsimp only
    repeat' split
    all_goals exact ⟨rfl, rfl, rfl, rfl, rfl, rfl⟩

/-- An aircraft whose staged fragments put the two intermediate
latitudes in different NL zones (rlat0 about 10.44, rlat1 about
10.48, straddling the 10.47047130 zone boundary). -/
def nl_mismatch_aircraft : Aircraft :=
  stage_fragment (stage_fragment (Aircraft.new 1 0) true 94000 0 0 0)
    false 97000 0 0 5

lemma nlm_j : cpr_j nl_mismatch_aircraft = 1 := by
  rw [cpr_j, show nl_mismatch_aircraft.even_cprlat = 97000 from rfl,
    show nl_mismatch_aircraft.odd_cprlat = 94000 from rfl, Int.floor_eq_iff]
  push_cast
  norm_num

lemma nlm_rlat0 : cpr_rlat0 nl_mismatch_aircraft = 85527 / 8192 := by
  rw [cpr_rlat0, nlm_j, show cpr_mod 1 60 = 1 from by decide,
    show nl_mismatch_aircraft.even_cprlat = 97000 from rfl]
  try dsimp only
  rw [if_neg (by push_cast; norm_num)]
  push_cast
  norm_num

lemma nlm_rlat1 : cpr_rlat1 nl_mismatch_aircraft = 633015 / 60416 := by
  rw [cpr_rlat1, nlm_j, show cpr_mod 1 59 = 1 from by decide,
    show nl_mismatch_aircraft.odd_cprlat = 94000 from rfl]
  try dsimp only
  rw [if_neg (by push_cast; norm_num)]
  push_cast
  norm_num

lemma nlm_mismatch :
    cpr_nl (cpr_rlat0 nl_mismatch_aircraft) ≠ cpr_nl (cpr_rlat1 nl_mismatch_aircraft) := by
  have h0 : cpr_nl (cpr_rlat0 nl_mismatch_aircraft) = 59 := by
    rw [nlm_rlat0, cpr_nl, abs_of_nonneg (by norm_num : (0 : ℚ) ≤ 85527 / 8192)]
    norm_num
  have h1 : cpr_nl (cpr_rlat1 nl_mismatch_aircraft) = 58 := by
    rw [nlm_rlat1, cpr_nl, abs_of_nonneg (by norm_num : (0 : ℚ) ≤ 633015 / 60416)]
    norm_num
  rw [h0, h1]
  decide

/-- Witness for C5: a fragment arriving 20 seconds after its partner
only stages, and the NL-mismatch aircraft is returned unchanged. -/
theorem c5_cpr_gating_witness :
    update_position_fragment (Aircraft.new 1 0) true 74158 50194 5000 20 =
      stage_fragment (Aircraft.new 1 0) true 74158 50194 5000 20 ∧
    decode_cpr nl_mismatch_aircraft = nl_mismatch_aircraft :=
  ⟨c5_cpr_gating.1 (Aircraft.new 1 0) true 74158 50194 5000 20 (by decide),
   c5_cpr_gating.2.1 nl_mismatch_aircraft nlm_mismatch⟩

/-- An aircraft whose staged fragments make the solve commit a
latitude of 6553599/65536 (about 99.99998), far outside (-90, 90]. -/
def lat_overflow_aircraft : Aircraft :=
  stage_fragment (stage_fragment (Aircraft.new 1 0) true 50972 0 0 0)
    false 87381 0 0 5

lemma lo_j : cpr_j lat_overflow_aircraft = 16 := by
  rw [cpr_j, show lat_overflow_aircraft.even_cprlat = 87381 from rfl,
    show lat_overflow_aircraft.odd_cprlat = 50972 from rfl, Int.floor_eq_iff]
  push_cast
  norm_num

lemma lo_rlat0 : cpr_rlat0 lat_overflow_aircraft = 6553599 / 65536 := by
  rw [cpr_rlat0, lo_j, show cpr_mod 16 60 = 16 from by decide,
    show lat_overflow_aircraft.even_cprlat = 87381 from rfl]
  try dsimp only
  rw [if_neg (by push_cast; norm_num)]
  push_cast
  norm_num

lemma lo_rlat1 : cpr_rlat1 lat_overflow_aircraft = 24166395 / 241664 := by
  rw [cpr_rlat1, lo_j, show cpr_mod 16 59 = 16 from by decide,
    show lat_overflow_aircraft.odd_cprlat = 50972 from rfl]
  try dsimp only
  rw [if_neg (by push_cast; norm_num)]
  push_cast
  norm_num

lemma lo_nl0 : cpr_nl (cpr_rlat0 lat_overflow_aircraft) = 1 := by
  rw [lo_rlat0, cpr_nl, abs_of_nonneg (by norm_num : (0 : ℚ) ≤ 6553599 / 65536)]
  norm_num

lemma lo_nl1 : cpr_nl (cpr_rlat1 lat_overflow_aircraft) = 1 := by
  rw [lo_rlat1, cpr_nl, abs_of_nonneg (by norm_num : (0 : ℚ) ≤ 24166395 / 241664)]
  norm_num

lemma lo_lat : (decode_cpr lat_overflow_aircraft).lat = 6553599 / 65536 := by
  rw [decode_cpr]
  try dsimp only
  rw [if_neg (by rw [lo_nl0, lo_nl1]; exact fun h => h rfl)]
  rw [if_pos (by decide :
    lat_overflow_aircraft.even_cprtime > lat_overflow_aircraft.odd_cprtime)]
  try dsimp only
  exact lo_rlat0

/-- Counterexample for C6: a successful solve (the latitude does
change) can commit a latitude above 90 degrees; the code has no
latitude-range guard. -/
theorem c6_position_invariant_counterexample :
    (decode_cpr lat_overflow_aircraft).lat ≠ lat_overflow_aircraft.lat ∧
    90 < (decode_cpr lat_overflow_aircraft).lat := by
  rw [lo_lat, show lat_overflow_aircraft.lat = 0 from rfl]
  norm_num

/-- C6 (amended): decoded lat/lon start at (0,0) and change only
through the CPR solve of an in-window fragment pair; after every
successful solve the committed longitude lies in (-180, 180] but the
committed latitude is only guaranteed to lie in [-90, 270). -/
theorem c6_position_invariant :
    (∀ addr now, (Aircraft.new addr now).lat = 0 ∧ (Aircraft.new addr now).lon = 0) ∧
    (∀ (ac : Aircraft) (f : Bool) (rlat rlon : Nat) (alt : Int) (now : Nat),
      ((update_position_fragment ac f rlat rlon alt now).lat = ac.lat ∧
       (update_position_fragment ac f rlat rlon alt now).lon = ac.lon) ∨
      update_position_fragment ac f rlat rlon alt now =
        decode_cpr (stage_fragment ac f rlat rlon alt now)) ∧
    (∀ ac : Aircraft, ac.even_cprlat < 131072 → ac.odd_cprlat < 131072 →
      ac.even_cprlon < 131072 → ac.odd_cprlon < 131072 →
      ((decode_cpr ac).lat = ac.lat ∧ (decode_cpr ac).lon = ac.lon) ∨
      (-180 < (decode_cpr ac).lon ∧ (decode_cpr ac).lon ≤ 180 ∧
       -90 ≤ (decode_cpr ac).lat ∧ (decode_cpr ac).lat < 270)) := by
  refine ⟨fun addr now => ⟨rfl, rfl⟩, ?_, ?_⟩
  · intro ac f rlat rlon alt now
    rw [update_position_fragment]
    try dsimp only
    split
    · right
      rfl
    · left
      rw [stage_fragment]
      try dsimp only
      split
      · exact ⟨rfl, rfl⟩
      · exact ⟨rfl, rfl⟩
  · intro ac hela hola helo holo
    rw [decode_cpr]
    try dsimp only
    split
    · left
      exact ⟨rfl, rfl⟩
    · right
      obtain ⟨hr0a, hr0b⟩ := cpr_rlat0_bounds ac hela
      obtain ⟨hr1a, hr1b⟩ := cpr_rlat1_bounds ac hola
      split
      next hnewer =>
        obtain ⟨hl0, hl1⟩ := cpr_lon_pre_bounds (cpr_rlat0 ac) false
          (Int.floor (((ac.even_cprlon : ℚ) * ((cpr_nl (cpr_rlat0 ac) : ℚ) - 1) -
            (ac.odd_cprlon : ℚ) * (cpr_nl (cpr_rlat0 ac) : ℚ)) / 131072 + 1/2))
          ac.even_cprlon helo
        try dsimp only
        split
        next hgt => exact ⟨by linarith, by linarith, hr0a, hr0b⟩
        next hle =>
          push_neg at hle
          exact ⟨by linarith, by linarith, hr0a, hr0b⟩
      next hnewer =>
        obtain ⟨hl0, hl1⟩ := cpr_lon_pre_bounds (cpr_rlat1 ac) true
          (Int.floor (((ac.even_cprlon : ℚ) * ((cpr_nl (cpr_rlat1 ac) : ℚ) - 1) -
            (ac.odd_cprlon : ℚ) * (cpr_nl (cpr_rlat1 ac) : ℚ)) / 131072 + 1/2))
          ac.odd_cprlon holo
        try dsimp only
        split
        next hgt => exact ⟨by linarith, by linarith, hr1a, hr1b⟩
        next hle =>
          push_neg at hle
          exact ⟨by linarith, by linarith, hr1a, hr1b⟩

/-- Witness for C6 at the latitude-overflow aircraft: its staged
values are within 17 bits, and the amended bounds hold for the
committed position. -/
theorem c6_position_invariant_witness :
    ((decode_cpr lat_overflow_aircraft).lat = lat_overflow_aircraft.lat ∧
     (decode_cpr lat_overflow_aircraft).lon = lat_overflow_aircraft.lon) ∨
    (-180 < (decode_cpr lat_overflow_aircraft).lon ∧
     (decode_cpr lat_overflow_aircraft).lon ≤ 180 ∧
     -90 ≤ (decode_cpr lat_overflow_aircraft).lat ∧
     (decode_cpr lat_overflow_aircraft).lat < 270) :=
  c6_position_invariant.2.2 lat_overflow_aircraft (by decide) (by decide)
    (by decide) (by decide)

/-- Binary-to-Gray conversion, the inverse of the decoder's iterative
shift-XOR Gray-to-binary conversion. -/
def binToGray (b : Nat) : Nat := b ^^^ (b >>> 1)

/-- Modelled from the spec: the 11-bit Gillham code for an altitude
`500*band + 100*offset - 1300` in the bit layout of §4.3.1 that
`decode_gillham_altitude` reads: the D/B group carries the Gray code
of the 500-ft band with D1 omitted (so the band's Gray code must have
bit 3 clear), and the C/A group carries the Gray code of the 100-ft
offset with A1 clear.  The repository contains no encoder; this is
the canonical inverse of the decoder's bit layout. -/
def encode_gillham (band offset : Nat) : Option Nat :=
  if band < 64 ∧ offset < 5 ∧ (binToGray band).testBit 3 = false then
    let g := binToGray band
    let h := binToGray offset
    some ((if g.testBit 5 then 0x400 else 0) ||| (if g.testBit 4 then 0x200 else 0) |||
      (if g.testBit 2 then 0x100 else 0) ||| (if g.testBit 1 then 0x080 else 0) |||
      (if g.testBit 0 then 0x040 else 0) ||| (if h.testBit 4 then 0x004 else 0) |||
      (if h.testBit 3 then 0x002 else 0) ||| (if h.testBit 2 then 0x001 else 0) |||
      (if h.testBit 1 then 0x020 else 0) ||| (if h.testBit 0 then 0x010 else 0))
  else none

lemma ite_some_eq {P : Prop} [Decidable P] {E alt : Int}
    (h : (if P then some E else none) = some alt) : P ∧ alt = E := by
  split at h
  next hp => exact ⟨hp, (Option.some.inj h).symm⟩
  next => cases h

set_option maxRecDepth 8000 in
set_option maxHeartbeats 2000000 in
/-- Counterexample for C7: altitude 2700 ft lies on the 100-ft grid
inside [-1200, 126700], but its 500-ft band is 8, whose Gray code has
bit 3 set, so it has no 11-bit Gillham code at all and none of the
2048 possible 11-bit codes decodes to it: the encode-decode identity
cannot hold across [-1200, 126700]. -/
theorem c7_gillham_counterexample :
    encode_gillham 8 0 = none ∧
    ((List.range 2048).all
      fun code => decode_gillham_altitude code != some 2700) = true := by decide

set_option maxRecDepth 10000 in
set_option maxHeartbeats 1000000 in
/-- C7 (amended): Gillham decode is the inverse of the encoding on
the subset the 11-bit layout can represent: bands below 64 whose Gray
code has bit 3 clear (D1 omitted), offsets 0-4, altitude above
-1300 ft; and any decoded altitude lies within [-1200, 126700]. -/
theorem c7_gillham_round_trip :
    (∀ band, band < 64 → ∀ offset, offset < 5 →
      0 < 5 * band + offset → (binToGray band).testBit 3 = false →
      (encode_gillham band offset).bind decode_gillham_altitude =
        some (500 * (band : Int) + 100 * (offset : Int) - 1300)) ∧
    (∀ code alt, decode_gillham_altitude code = some alt →
      -1200 ≤ alt ∧ alt ≤ 126700) := by
  constructor
  · decide
  · intro code alt h
    by_cases h0 : code = 0
    · rw [decode_gillham_altitude, if_pos h0] at h
      cases h
    · rw [decode_gillham_altitude, if_neg h0] at h
      try dsimp only at h
      obtain ⟨hr, ha⟩ := ite_some_eq h
      rw [ha]
      exact hr

/-- Witness for C7 at band 4, offset 4 (altitude 1100 ft): the
encode-decode identity holds there, and the decoded value respects
the range bound. -/
theorem c7_gillham_round_trip_witness :
    (encode_gillham 4 4).bind decode_gillham_altitude =
      some (500 * ((4 : Nat) : Int) + 100 * ((4 : Nat) : Int) - 1300) ∧
    (-1200 : Int) ≤ 1100 ∧ (1100 : Int) ≤ 126700 :=
  ⟨c7_gillham_round_trip.1 4 (by norm_num) 4 (by norm_num) (by norm_num) (by decide),
   c7_gillham_round_trip.2 0x1A1 1100 (by decide)⟩

/-- Counterexample for C9: an MB field whose third 6-bit index is 0
(which maps to the question mark) is accepted by the BDS 2,0 probe,
producing the callsign AB? - so not every question-mark index is
rejected. -/
theorem c9_bds20_question_mark_counterexample :
    try_decode_bds_20 [4, 32, 32, 130, 8, 32, 0] =
      some (.AircraftIdentification ['A', 'B', '?']) := by decide

/-- C9 (amended): the BDS 2,0 probe rejects any MB field containing a
nonzero 6-bit index that maps to the question mark (index 0, which
also maps to the question mark, is tolerated); an accepted callsign
is non-empty after trimming and contains a character other than
space and question mark; and the DF17 identification decoder
tolerates question marks, always assembling the trimmed callsign. -/
theorem c9_bds20_question_mark :
    (∀ mb : List Nat,
      (∃ i, i < 8 ∧ (bds20_char_indices mb).getD i 0 ≠ 0 ∧
        AIS_CHARSET.getD ((bds20_char_indices mb).getD i 0) '?' = '?') →
      try_decode_bds_20 mb = none) ∧
    (∀ (mb : List Nat) (cs : List Char),
      try_decode_bds_20 mb = some (.AircraftIdentification cs) →
      cs ≠ [] ∧ ¬ ∀ c ∈ cs, c = ' ' ∨ c = '?') ∧
    (∀ mm : ModesMessage, 1 ≤ mm.me_type → mm.me_type ≤ 4 →
      (decode_extended_squitter mm).flight =
        rust_trim ((df17_char_indices mm.msg).map fun idx =>
          if idx < AIS_CHARSET.length then AIS_CHARSET.getD idx '?' else '?')) := by
  refine ⟨?_, ?_, ?_⟩
  · rintro mb ⟨i, hi, hnz, hq⟩
    rw [try_decode_bds_20]
    try dsimp only
    have hall : ((bds20_char_indices mb).all fun idx =>
        idx < 64 && !(AIS_CHARSET.getD idx '?' == '?' && idx != 0)) = false := by
      rw [List.all_eq_false]
      refine ⟨(bds20_char_indices mb).getD i 0, ?_, ?_⟩
      · have hlen : (bds20_char_indices mb).length = 8 := rfl
        rw [List.getD_eq_getElem?_getD, List.getElem?_eq_getElem (by omega)]
        exact List.getElem_mem _
      · simp only [List.getD_eq_getElem?_getD] at hq hnz
        simp [hq, hnz]
    rw [hall]
    rfl
  · intro mb cs h
    rw [try_decode_bds_20] at h
    try dsimp only at h
    split at h
    next => cases h
    next hvalid =>
      split at h
      next => cases h
      next hcall =>
        have hcs : rust_trim ((bds20_char_indices mb).map fun idx =>
            AIS_CHARSET.getD (min idx 63) '?') = cs := by
          have := Option.some.inj h
          cases this
          rfl
        rw [Bool.or_eq_true, not_or] at hcall
        obtain ⟨hne, hnall⟩ := hcall
        constructor
        · intro hnil
          apply hne
          rw [hcs, hnil]
          rfl
        · intro hforall
          apply hnall
          rw [hcs]
          apply List.all_eq_true.2
          intro c hc
          rcases hforall c hc with h' | h' <;> simp [h']
  · intro mm h1 h4
    rw [decode_extended_squitter]
    try dsimp only
    rw [if_pos ⟨h1, h4⟩]

/-- Witness for C9: an MB field whose first index is 34 (a nonzero
question-mark index) is rejected, and a DF17 identification message
over the zero buffer assembles its (all-question-mark) callsign
without rejection. -/
theorem c9_bds20_question_mark_witness :
    try_decode_bds_20 [136, 0, 0, 0, 0, 0, 0] = none ∧
    (decode_extended_squitter { ModesMessage.default with me_type := 4 }).flight =
      rust_trim ((df17_char_indices
          ({ ModesMessage.default with me_type := 4 } : ModesMessage).msg).map fun idx =>
        if idx < AIS_CHARSET.length then AIS_CHARSET.getD idx '?' else '?') :=
  ⟨c9_bds20_question_mark.1 [136, 0, 0, 0, 0, 0, 0]
      ⟨0, by norm_num, by decide, by decide⟩,
   c9_bds20_question_mark.2.2 _ (by norm_num) (by norm_num)⟩

end Adsb
